import Mathlib

/-! # WebOS SDL event source

A shallow embedding of `backends/events/webossdl/webossdl-events.cpp`: the
file-level statics become the fields of `State`, each handler becomes a
function from the state, the SDL event and the host event to a `Result`
(return value, host event, new state and the calls made to the outside world).

Machine integers are `Int` values with explicit wrap-around: `int` and `long`
are the 32-bit two's complement types of the ARM targets of WebOS, so the
sums `dragDiffX += xrel`, `dragDiffY += yrel` and `curTime + delay`, the
negation inside `ABS` and the conversion of the clock to `int` wrap modulo
`2^32` (`wrapInt`), as the compiled code does.
-/

namespace WebOSSdlEventSource

/-! ## Types declared by the host application and by SDL -/

/-- Modelled from the spec: the enumeration `Common::EventType` is declared
in a header outside src/.  `EVENT_INVALID` is the enumerator with value 0,
which the source writes as `(Common::EventType)0`; the other enumerators
are the ones the source names, and `EVENT_OTHER` stands for every remaining
event type. -/
inductive EventType where
  | EVENT_INVALID
  | EVENT_KEYDOWN
  | EVENT_KEYUP
  | EVENT_MOUSEMOVE
  | EVENT_LBUTTONDOWN
  | EVENT_LBUTTONUP
  | EVENT_RBUTTONDOWN
  | EVENT_RBUTTONUP
  | EVENT_MBUTTONDOWN
  | EVENT_MBUTTONUP
  | EVENT_OTHER (code : Nat)
  deriving DecidableEq, Repr

open EventType

/-- Modelled from the spec: `Common::KeyState`, the keyboard part of a host
event (declared outside src/): key code, ascii value and modifier flags. -/
structure KeyState where
  keycode : Nat
  ascii : Nat
  flags : Nat
  deriving DecidableEq, Repr

/-- Modelled from the spec: `Common::Point`, the mouse position of a host
event (declared outside src/). -/
structure Point where
  x : Int
  y : Int
  deriving DecidableEq, Repr

/-- Modelled from the spec: `Common::Event`, the host application's event
(declared outside src/), with the members the source reads and writes. -/
structure Event where
  type : EventType
  kbd : KeyState
  mouse : Point
  deriving DecidableEq, Repr

/-- Modelled from the spec: the members of the `SDL_Event` union that the
source reads.  `which`, `x` and `y` are shared by the button and the motion
view of the union (`ev.button.which`, `ev.motion.which`, `ev.motion.x`,
`ev.motion.y`); `sym` and `mod` are `ev.key.keysym.sym` and
`ev.key.keysym.mod`; `xrel` and `yrel` are `ev.motion.xrel`, `ev.motion.yrel`. -/
structure SDL_Event where
  sym : Nat
  mod : Nat
  which : Nat
  x : Int
  y : Int
  xrel : Int
  yrel : Int
  deriving DecidableEq, Repr

/-- Modelled from the spec: `Common::KEYCODE_ESCAPE` (declared outside src/). -/
def KEYCODE_ESCAPE : Nat := 27

/-- Modelled from the spec: `Common::ASCII_ESCAPE` (declared outside src/). -/
def ASCII_ESCAPE : Nat := 27

/-- Modelled from the spec: `Common::KBD_CTRL`, a modifier flag bit of the
host application (declared outside src/). -/
def KBD_CTRL : Nat := 1

/-- Modelled from the spec: `Common::KBD_ALT`, a modifier flag bit of the
host application (declared outside src/). -/
def KBD_ALT : Nat := 2

/-- Modelled from the spec: `Common::KBD_SHIFT`, a modifier flag bit of the
host application (declared outside src/). -/
def KBD_SHIFT : Nat := 4

/-- Modelled from the spec: SDL's `KMOD_SHIFT`, both shift bits of an SDL
modifier mask (`KMOD_LSHIFT | KMOD_RSHIFT`, declared outside src/). -/
def KMOD_SHIFT : Nat := 0x0003

/-- Modelled from the spec: SDL's `KMOD_CTRL`, both control bits of an SDL
modifier mask (`KMOD_LCTRL | KMOD_RCTRL`, declared outside src/). -/
def KMOD_CTRL : Nat := 0x00c0

/-- Modelled from the spec: SDL's `KMOD_ALT | KMOD_META | KMOD_NUM | KMOD_CAPS`
bits of an SDL modifier mask (declared outside src/); the source never reads
them. -/
def KMOD_IGNORED : Nat := 0x3f00

/-- Modelled from the spec: SDL's key symbol `SDLK_WORLD_71`, sent while the
gesture area is pressed (declared outside src/). -/
def SDLK_WORLD_71 : Nat := 231

/-! ## The statics of the source file -/

/-- The file-level `static` variables. -/
structure State where
  gestureDown : Bool
  screenDownTime : Int
  motionPtrIndex : Int
  dragDiffX : Int
  dragDiffY : Int
  dragging : Bool
  curX : Int
  curY : Int
  queuedEventTime : Int
  queuedInputEvent : Event
  blockLClick : Bool
  blockRClick : Bool
  specialAction : Bool
  deriving DecidableEq, Repr

/-- The statics as initialised at program start and by the constructor
(`queuedInputEvent.type = 0`). -/
def State.init : State where
  gestureDown := false
  screenDownTime := 0
  motionPtrIndex := -1
  dragDiffX := 0
  dragDiffY := 0
  dragging := false
  curX := 0
  curY := 0
  queuedEventTime := 0
  queuedInputEvent := ⟨EVENT_INVALID, ⟨0, 0, 0⟩, ⟨0, 0⟩⟩
  blockLClick := false
  blockRClick := false
  specialAction := false

/-- Time in millis to wait before loading a queued event. -/
def queuedInputEventDelay : Int := 250

/-- What a handler reads from the outside world during one call. -/
structure Env where
  /-- Value of `g_system->getWidth()`. -/
  width : Int
  /-- Value of `g_system->getHeight()`. -/
  height : Int
  /-- Value of `PDL_GetPDKVersion()`. -/
  pdkVersion : Int
  /-- Whether `g_engine` is non-null. -/
  engine : Bool
  /-- Value of `g_engine->isPaused()`. -/
  paused : Bool
  /-- Value of `getMillis()`. -/
  now : Int
  /-- Value of a second `getMillis()` read in the same call. -/
  later : Int
  deriving DecidableEq, Repr

/-- A call a handler makes to the outside world. -/
inductive Effect where
  /-- The call `g_system->getEventManager()->pushEvent(event)`. -/
  | pushEvent (event : Event)
  /-- The call `PDL_SetKeyboardState(enabled)`. -/
  | setKeyboardState (enabled : Bool)
  /-- The call `g_engine->openMainMenuDialog()`. -/
  | openMainMenuDialog
  deriving DecidableEq, Repr

/-- Outcome of a handler: returned boolean, the host event passed by
reference, the statics and the outside calls in program order. -/
structure Result where
  ret : Bool
  event : Event
  state : State
  effects : List Effect
  deriving DecidableEq, Repr

/-- Modelled from the spec: `SdlEventSource::processMouseEvent` of the base
class is not in src/; it positions the event at `(x, y)`. -/
def processMouseEvent (event : Event) (x y : Int) : Event :=
  { event with mouse := ⟨x, y⟩ }

/-! ## Machine integers -/

/-- The value of a 32-bit two's complement `int` or `long` after an
arithmetic result `n` is stored in it: `n` modulo `2^32`, taken in the range
from `-2^31` to `2^31 - 1`. -/
def wrapInt (n : Int) : Int := (n + 2147483648) % 4294967296 - 2147483648

/-- Modelled from the spec: the template `ABS` of the host application
(declared outside src/), `(x >= 0) ? x : -x`, at type `int`: the negation
wraps, so `ABS` of the smallest `int` is that same negative value. -/
def ABS (x : Int) : Int := if x ≥ 0 then x else wrapInt (-x)

/-! ## Double-precision threshold `screen * 0.6` -/

/-- Number of low bits to drop so that `p` fits the 53-bit significand of a
double (`fuel` bounds the recursion; `fuel = p` always suffices). -/
def excessBits : Nat → Nat → Nat
  | 0, _ => 0
  | fuel + 1, p => if p < 2 ^ 53 then 0 else excessBits fuel (p / 2) + 1

/-- Round-to-nearest, ties-to-even, of the natural number `p` to 53
significant bits (the rounding of IEEE-754 binary64). -/
def roundToDouble (p : Nat) : Nat :=
  let sh := excessBits p p
  let q := p / 2 ^ sh
  let r := p % 2 ^ sh
  if 2 ^ sh < 2 * r ∨ (2 * r = 2 ^ sh ∧ q % 2 = 1) then (q + 1) * 2 ^ sh else q * 2 ^ sh

/-- The double product `n * 0.6` for an integer `n ≥ 0`, in units of `2^-53`.
The literal `0.6` is the double `5404319552844595 * 2^-53`; the exact
product is rounded to a double. -/
def timesPoint6 (n : Nat) : Nat := roundToDouble (n * 5404319552844595)

/-- The source's test `ABS(diff) >= ABS(dim*0.6)`: `ABS(diff)` is the `int`
absolute value with its wrap-around, converted exactly to a double;
`dim*0.6` is a double product, whose absolute value is the product for
`|dim|`; the comparison is made in units of `2^-53`. -/
def swipeReached (diff dim : Int) : Bool :=
  decide ((timesPoint6 dim.natAbs : Int) ≤ ABS diff * 2 ^ 53)

/-! ## The handlers -/

/-- The source's `pollEvent`; `base` is `SdlEventSource::pollEvent`. -/
def pollEvent (base : State → Event → Result) (env : Env) (s : State) (event : Event) :
    Result :=
  let curTime := env.now
  -- Move the queued event into the event if it's time
  if s.queuedInputEvent.type ≠ EVENT_INVALID ∧ curTime ≥ s.queuedEventTime then
    let event := s.queuedInputEvent
    let event :=
      if event.type = EVENT_LBUTTONDOWN then processMouseEvent event s.curX s.curY else event
    ⟨true, event,
      { s with queuedInputEvent := { s.queuedInputEvent with type := EVENT_INVALID } }, []⟩
  else
    base s event

/-- The source's `SDLModToOSystemKeyFlags`. -/
def SDLModToOSystemKeyFlags (s : State) (mod : Nat) (event : Event) : Event :=
  let flags := 0
  let flags := if mod &&& KMOD_SHIFT ≠ 0 then flags ||| KBD_SHIFT else flags
  let flags := if mod &&& KMOD_CTRL ≠ 0 then flags ||| KBD_CTRL else flags
  -- Holding down the gesture area emulates the ALT key
  let flags := if s.gestureDown then flags ||| KBD_ALT else flags
  { event with kbd := { event.kbd with flags := flags } }

/-- The source's `handleKeyDown`; `base` is `SdlEventSource::handleKeyDown`,
which reads the statics (through `SDLModToOSystemKeyFlags`) and cannot write
them. -/
def handleKeyDown (base : State → SDL_Event → Event → Bool × Event) (env : Env)
    (s : State) (ev : SDL_Event) (event : Event) : Result :=
  -- Handle gesture area tap.
  if ev.sym = SDLK_WORLD_71 then
    ⟨true, event, { s with gestureDown := true }, []⟩
  else
    let s := if ev.sym = 27 ∨ ev.sym = 229 then { s with gestureDown := false } else s
    -- handle virtual keyboard dismiss key
    if ev.sym = 24 ∧ env.pdkVersion ≥ 300 then
      ⟨true, event, s, [Effect.setKeyboardState false]⟩
    else
      -- Call original SDL key handler.
      ⟨(base s ev event).1, (base s ev event).2, s, []⟩

/-- The source's `handleKeyUp`; `base` is `SdlEventSource::handleKeyUp`. -/
def handleKeyUp (base : State → SDL_Event → Event → Bool × Event) (env : Env)
    (s : State) (ev : SDL_Event) (event : Event) : Result :=
  -- Handle gesture area tap.
  if ev.sym = SDLK_WORLD_71 then
    ⟨true, event, { s with gestureDown := false }, []⟩
  else if ev.sym = 24 ∧ env.pdkVersion ≥ 300 then
    ⟨true, event, s, [Effect.setKeyboardState false]⟩
  else
    ⟨(base s ev event).1, (base s ev event).2, s, []⟩

/-- The source's `handleMouseButtonDown`. -/
def handleMouseButtonDown (env : Env) (s : State) (ev : SDL_Event) (event : Event) :
    Result :=
  let s :=
    -- If no button was pressed
    if s.motionPtrIndex = -1 then
      let screenX := env.width
      let screenY := env.height
      let curTime := env.later
      { s with
        curX := min screenX (max 0 ev.x)
        curY := min screenY (max 0 ev.y)
        dragDiffX := 0
        dragDiffY := 0
        screenDownTime := wrapInt env.now
        blockLClick := false
        blockRClick := false
        specialAction := false
        -- Queued event, to hold left click if we don't move
        queuedInputEvent := { s.queuedInputEvent with type := EVENT_LBUTTONDOWN }
        queuedEventTime := wrapInt (curTime + 500) }
    -- If we push another button while the first one is pressed,
    -- we stop the queued event if it didn't trigger yet
    else if s.queuedInputEvent.type = EVENT_LBUTTONDOWN then
      { s with queuedInputEvent := { s.queuedInputEvent with type := EVENT_INVALID } }
    else s
  -- We store the index of the pressed button (for multi-touch)
  ⟨true, event, { s with motionPtrIndex := ev.which }, []⟩

/-- The source's `handleMouseButtonUp`. -/
def handleMouseButtonUp (env : Env) (s0 : State) (ev : SDL_Event) (event0 : Event) :
    Result := Id.run do
  let mut s := s0
  let mut event := event0
  let mut fx : List Effect := []
  -- We stop the queued event that was supposed to left click if it hasn't happen yet
  if s.queuedInputEvent.type = EVENT_LBUTTONDOWN then
    s := { s with queuedInputEvent := { s.queuedInputEvent with type := EVENT_INVALID } }
  -- To handle the first button pressed
  if ev.which = 0 then
    -- No more button pressed
    s := { s with motionPtrIndex := -1 }
    -- When drag mode was active then simply send a mouse up event
    -- only if we don't display the menu, or it could click on it
    if s.dragging && !s.specialAction then
      event := { event with type := EVENT_LBUTTONUP }
      event := processMouseEvent event s.curX s.curY
      s := { s with dragging := false }
      return ⟨true, event, s, fx⟩
    -- When mouse was moved 5 pixels or less then emulate
    -- a mouse button click
    if decide (ABS s.dragDiffX < 6) && decide (ABS s.dragDiffY < 6) && !s.blockLClick then
      event := { event with type := EVENT_LBUTTONUP }
      event := processMouseEvent event s.curX s.curY
      fx := fx ++ [Effect.pushEvent event]
      event := { event with type := EVENT_LBUTTONDOWN }
  -- If the second button is released
  if ev.which = 1 then
    let screenX := env.width
    let screenY := env.height
    -- 60% of the screen height for menu dialog/keyboard
    if swipeReached s.dragDiffY screenY then
      s := { s with specialAction := true }
      if s.dragDiffY ≤ 0 then
        let gblPDKVersion := env.pdkVersion
        -- check for correct PDK Version
        if gblPDKVersion ≥ 300 then
          fx := fx ++ [Effect.setKeyboardState true]
          return ⟨true, event, s, fx⟩
      else
        if env.engine && !env.paused then
          fx := fx ++ [Effect.openMainMenuDialog]
          return ⟨true, event, s, fx⟩
    -- 60% of the screen width for escape key (left or right)
    if swipeReached s.dragDiffX screenX then
      s := { s with specialAction := true }
      let curTime := env.now
      event := { event with type := EVENT_KEYDOWN }
      s := { s with queuedInputEvent := { s.queuedInputEvent with type := EVENT_KEYUP } }
      s := { s with queuedInputEvent :=
                { s.queuedInputEvent with kbd := { s.queuedInputEvent.kbd with flags := 0 } } }
      event := { event with kbd := { event.kbd with flags := 0 } }
      s := { s with queuedInputEvent :=
                { s.queuedInputEvent with
                  kbd := { s.queuedInputEvent.kbd with keycode := KEYCODE_ESCAPE } } }
      event := { event with kbd := { event.kbd with keycode := KEYCODE_ESCAPE } }
      s := { s with queuedInputEvent :=
                { s.queuedInputEvent with
                  kbd := { s.queuedInputEvent.kbd with ascii := ASCII_ESCAPE } } }
      event := { event with kbd := { event.kbd with ascii := ASCII_ESCAPE } }
      s := { s with queuedEventTime := wrapInt (curTime + queuedInputEventDelay) }
      return ⟨true, event, s, fx⟩
    -- When we tap with the second finger (without moving the first finger
    -- more than 6 pixels), we emulate a right click
    if decide (ABS s.dragDiffX < 6) && decide (ABS s.dragDiffY < 6) && !s.blockRClick then
      event := { event with type := EVENT_RBUTTONUP }
      event := processMouseEvent event s.curX s.curY
      fx := fx ++ [Effect.pushEvent event]
      event := { event with type := EVENT_RBUTTONDOWN }
      s := { s with blockLClick := true }
  -- If the third button is released
  if ev.which = 2 then
    -- When we tap with the third finger (without moving the first finger
    -- more than 6 pixels), we emulate a middle click
    if decide (ABS s.dragDiffX < 6) && decide (ABS s.dragDiffY < 6) then
      event := { event with type := EVENT_MBUTTONUP }
      event := processMouseEvent event s.curX s.curY
      fx := fx ++ [Effect.pushEvent event]
      event := { event with type := EVENT_MBUTTONDOWN }
      s := { s with blockLClick := true, blockRClick := true }
  return ⟨true, event, s, fx⟩

/-- The source's `handleMouseMotion`. -/
def handleMouseMotion (env : Env) (s0 : State) (ev : SDL_Event) (event0 : Event) :
    Result := Id.run do
  let mut s := s0
  let mut event := event0
  if ev.which = 0 then
    let screenX := env.width
    let screenY := env.height
    s := { s with curX := min screenX (max 0 ev.x) }
    s := { s with curY := min screenY (max 0 ev.y) }
    s := { s with dragDiffX := wrapInt (s.dragDiffX + ev.xrel) }
    s := { s with dragDiffY := wrapInt (s.dragDiffY + ev.yrel) }
    event := { event with type := EVENT_MOUSEMOVE }
    event := processMouseEvent event s.curX s.curY
  -- If we move more than 5 pixels, we're dragging
  -- so, we stop the queued event that was going to
  -- left click
  if decide (s.motionPtrIndex ≠ -1) && (decide (ABS s.dragDiffX > 5) || decide (ABS s.dragDiffY > 5))
      && !s.dragging then
    if s.queuedInputEvent.type = EVENT_LBUTTONDOWN then
      s := { s with queuedInputEvent := { s.queuedInputEvent with type := EVENT_INVALID } }
    s := { s with dragging := true }
  return ⟨true, event, s, []⟩


/-! ## Sequences of handler calls -/

/-- The handlers of the source file. -/
inductive Handler where
  | pollEvent
  | handleKeyDown
  | handleKeyUp
  | handleMouseButtonDown
  | handleMouseButtonUp
  | handleMouseMotion
  deriving DecidableEq, Repr

/-- One call of a handler: which handler, what it reads from the outside
world, the SDL event (unused by `pollEvent`) and the host event passed in. -/
structure Call where
  handler : Handler
  env : Env
  ev : SDL_Event
  event : Event
  deriving DecidableEq, Repr

/-- The base-class key handlers `SdlEventSource::handleKeyDown` and
`SdlEventSource::handleKeyUp`, which are not in src/ and are left arbitrary. -/
structure BaseKeys where
  handleKeyDown : State → SDL_Event → Event → Bool × Event
  handleKeyUp : State → SDL_Event → Event → Bool × Event

/-- The part of `SdlEventSource::pollEvent` seen by a sequence of calls: it
returns without an event.  The handler calls the base poll dispatches are
listed in the sequence as calls of their own, after the `pollEvent` call. -/
def idlePoll (s : State) (event : Event) : Result := ⟨false, event, s, []⟩

/-- Run one call on the statics. -/
def Call.exec (b : BaseKeys) (c : Call) (s : State) : Result :=
  match c.handler with
  | Handler.pollEvent => pollEvent idlePoll c.env s c.event
  | Handler.handleKeyDown => handleKeyDown b.handleKeyDown c.env s c.ev c.event
  | Handler.handleKeyUp => handleKeyUp b.handleKeyUp c.env s c.ev c.event
  | Handler.handleMouseButtonDown => handleMouseButtonDown c.env s c.ev c.event
  | Handler.handleMouseButtonUp => handleMouseButtonUp c.env s c.ev c.event
  | Handler.handleMouseMotion => handleMouseMotion c.env s c.ev c.event

/-- The statics after a sequence of calls, in program order. -/
def run (b : BaseKeys) (s : State) (cs : List Call) : State :=
  cs.foldl (fun st c => (c.exec b st).state) s

/-- A key-down of `SDLK_WORLD_71`: the gesture area is pressed. -/
def Call.isGesturePress (c : Call) : Bool :=
  decide (c.handler = Handler.handleKeyDown ∧ c.ev.sym = SDLK_WORLD_71)

/-- A key-up of `SDLK_WORLD_71`, or a key-down of the back gesture (27) or the
forward gesture (229). -/
def Call.isGestureRelease (c : Call) : Bool :=
  decide ((c.handler = Handler.handleKeyUp ∧ c.ev.sym = SDLK_WORLD_71) ∨
    (c.handler = Handler.handleKeyDown ∧ (c.ev.sym = 27 ∨ c.ev.sym = 229)))

/-- A press handled while no button is down (`motionPtrIndex == -1`): the
start of a touch. -/
def Call.isFirstTouch (c : Call) (s : State) : Bool :=
  decide (c.handler = Handler.handleMouseButtonDown ∧ s.motionPtrIndex = -1)

/-- No call of the sequence, run from `s`, starts a new touch. -/
def sameTouch (b : BaseKeys) : State → List Call → Bool
  | _, [] => true
  | s, c :: cs => !c.isFirstTouch s && sameTouch b (c.exec b s).state cs

/-- The value fits the C++ type `int`. -/
def isInt (n : Int) : Prop := -2147483648 ≤ n ∧ n ≤ 2147483647

instance (n : Int) : Decidable (isInt n) := by unfold isInt; infer_instance

/-! ## Sample values -/

/-- A host event with no content. -/
def blankEvent : Event := ⟨EVENT_INVALID, ⟨0, 0, 0⟩, ⟨0, 0⟩⟩

/-- A 480x320 screen, PDK version 300, a running engine, at time `t`. -/
def envAt (t : Int) : Env := ⟨480, 320, 300, true, false, t, t⟩

/-- An SDL pointer event of pointer `which` at `(x, y)` after a relative
motion `(xrel, yrel)`. -/
def pointerEvent (which : Nat) (x y xrel yrel : Int) : SDL_Event :=
  ⟨0, 0, which, x, y, xrel, yrel⟩

/-- An SDL key event of key symbol `sym` with modifier mask `mod`. -/
def keyEvent (sym mod : Nat) : SDL_Event := ⟨sym, mod, 0, 0, 0, 0, 0⟩

/-- Base key handlers that report the key as not handled. -/
def noBaseKeys : BaseKeys := ⟨fun _ _ event => (false, event), fun _ _ event => (false, event)⟩

/-- A call of handler `h` at time `t` on the sample screen, with a blank host
event. -/
def callAt (h : Handler) (t : Int) (ev : SDL_Event) : Call := ⟨h, envAt t, ev, blankEvent⟩

/-! ## Restatements used by the theorems -/

/-- The statics after the statement that stops a queued left click,
`if (queuedInputEvent.type == EVENT_LBUTTONDOWN) queuedInputEvent.type = 0`,
which opens `handleMouseButtonUp`.  It is not a function of the source: the
theorems `handleMouseButtonUp_pointer0` to `handleMouseButtonUp_otherPointer`
prove the handler equal to the outcomes written with it. -/
def State.cancelHeldClick (s : State) : State :=
  if s.queuedInputEvent.type = EVENT_LBUTTONDOWN then
    { s with queuedInputEvent := { s.queuedInputEvent with type := EVENT_INVALID } }
  else s

/-- The outcomes of releasing pointer 1 once the vertical swipe has been
dealt with, on the statics `t`: the escape key, the right click, or nothing.
It is not a function of the source: the theorem `handleMouseButtonUp_pointer1`
proves the handler equal to the outcomes written with it. -/
def secondFingerRest (env : Env) (t : State) (event : Event) : Result :=
  if swipeReached t.dragDiffX env.width = true then
    ⟨true, ⟨EVENT_KEYDOWN, ⟨KEYCODE_ESCAPE, ASCII_ESCAPE, 0⟩, event.mouse⟩,
     { t with
       specialAction := true
       queuedInputEvent := ⟨EVENT_KEYUP, ⟨KEYCODE_ESCAPE, ASCII_ESCAPE, 0⟩,
         t.queuedInputEvent.mouse⟩
       queuedEventTime := wrapInt (env.now + queuedInputEventDelay) }, []⟩
  else if ABS t.dragDiffX < 6 ∧ ABS t.dragDiffY < 6 ∧ t.blockRClick = false then
    ⟨true, ⟨EVENT_RBUTTONDOWN, event.kbd, ⟨t.curX, t.curY⟩⟩, { t with blockLClick := true },
     [Effect.pushEvent ⟨EVENT_RBUTTONUP, event.kbd, ⟨t.curX, t.curY⟩⟩]⟩
  else ⟨true, event, t, []⟩

/-! ## Sample traces -/

/-- A touch that ends with an escape swipe, followed by a new touch that moves
10 pixels: press at (100, 100), drag to (400, 100), second finger down and
up (escape key), first finger up, delivery of the queued key-up, then a press
at (100, 100) at time 10000 and a motion to (110, 100) at time 10100. -/
def swipeThenDragTrace : List Call :=
  [callAt Handler.handleMouseButtonDown 0 (pointerEvent 0 100 100 0 0),
   callAt Handler.handleMouseMotion 50 (pointerEvent 0 400 100 300 0),
   callAt Handler.handleMouseButtonDown 100 (pointerEvent 1 200 200 0 0),
   callAt Handler.handleMouseButtonUp 150 (pointerEvent 1 200 200 0 0),
   callAt Handler.handleMouseButtonUp 200 (pointerEvent 0 400 100 0 0),
   callAt Handler.pollEvent 400 (pointerEvent 0 0 0 0 0),
   callAt Handler.handleMouseButtonDown 10000 (pointerEvent 0 100 100 0 0),
   callAt Handler.handleMouseMotion 10100 (pointerEvent 0 110 100 10 0)]

/-- A touch with an upward two-finger swipe after which the first finger goes
back to where it started: press at (100, 300), drag to (100, 50), second
finger down and up (keyboard request), drag back to (100, 300). -/
def swipeAndReturnTrace : List Call :=
  [callAt Handler.handleMouseButtonDown 0 (pointerEvent 0 100 300 0 0),
   callAt Handler.handleMouseMotion 50 (pointerEvent 0 100 50 0 (-250)),
   callAt Handler.handleMouseButtonDown 100 (pointerEvent 1 200 200 0 0),
   callAt Handler.handleMouseButtonUp 150 (pointerEvent 1 200 200 0 0),
   callAt Handler.handleMouseMotion 200 (pointerEvent 0 100 300 0 250)]

/-! ## The largest motion of a touch -/

/-- Following the claim's words, not the source: the largest absolute
displacement from the touch-down point reached at any moment of a sequence
of relative motions, `pos` being the displacement reached before them. -/
def largestDisplacement : Int → List Int → Int
  | pos, [] => |pos|
  | pos, rel :: rels => max |pos| (largestDisplacement (pos + rel) rels)

/-- The horizontal relative motions of the pointer-0 motion calls of a trace. -/
def horizontalMotions (cs : List Call) : List Int :=
  (cs.filter fun c => decide (c.handler = Handler.handleMouseMotion ∧ c.ev.which = 0)).map
    fun c => c.ev.xrel

/-- The vertical relative motions of the pointer-0 motion calls of a trace. -/
def verticalMotions (cs : List Call) : List Int :=
  (cs.filter fun c => decide (c.handler = Handler.handleMouseMotion ∧ c.ev.which = 0)).map
    fun c => c.ev.yrel

/-- A touch whose finger strays and comes back: press at (100, 100), motion
to (110, 108), motion back to (100, 100). -/
def strayAndReturnTrace : List Call :=
  [callAt Handler.handleMouseButtonDown 0 (pointerEvent 0 100 100 0 0),
   callAt Handler.handleMouseMotion 50 (pointerEvent 0 110 108 10 8),
   callAt Handler.handleMouseMotion 100 (pointerEvent 0 100 100 (-10) (-8))]

/-- The press of a second finger at (200, 200) at time 150. -/
def secondFingerPress : List Call :=
  [callAt Handler.handleMouseButtonDown 150 (pointerEvent 1 200 200 0 0)]


/-! ## The threshold test in integer arithmetic -/

/-- A number below `2^(53+k)` loses at most `k` bits. -/
theorem excessBits_le : ∀ (k fuel p : Nat), p < 2 ^ (53 + k) → excessBits fuel p ≤ k := by
  intro k
  induction k with
  | zero =>
    intro fuel p hp
    cases fuel with
    | zero => simp [excessBits]
    | succ f =>
      have hp' : p < 2 ^ 53 := by simpa using hp
      unfold excessBits
      rw [if_pos hp']
  | succ k ih =>
    intro fuel p hp
    cases fuel with
    | zero => simp [excessBits]
    | succ f =>
      unfold excessBits
      split
      · omega
      · have h2 : p / 2 < 2 ^ (53 + k) := by
          have : (2:Nat) ^ (53 + (k + 1)) = 2 * 2 ^ (53 + k) := by ring
          omega
        have := ih f (p / 2) h2
        omega

/-- The rounded value as a multiple of the unit `t` of the last kept bit. -/
theorem roundToDouble_eq (p : Nat) :
    roundToDouble p =
      if 2 ^ excessBits p p < 2 * (p % 2 ^ excessBits p p) ∨
          (2 * (p % 2 ^ excessBits p p) = 2 ^ excessBits p p ∧ p / 2 ^ excessBits p p % 2 = 1)
      then p / 2 ^ excessBits p p * 2 ^ excessBits p p + 2 ^ excessBits p p
      else p / 2 ^ excessBits p p * 2 ^ excessBits p p := by
  simp only [roundToDouble, Nat.add_mul, Nat.one_mul]

/-- Rounding does not go above a multiple of the unit that bounds `p`. -/
theorem roundToDouble_le (p E : Nat) (h : p ≤ E * 2 ^ excessBits p p) :
    roundToDouble p ≤ E * 2 ^ excessBits p p := by
  rw [roundToDouble_eq]
  have ht : 0 < 2 ^ excessBits p p := Nat.two_pow_pos _
  generalize 2 ^ excessBits p p = t at ht h ⊢
  have hdm := Nat.div_add_mod p t
  have hml := Nat.mod_lt p ht
  have h3 : t * (p / t) = p / t * t := Nat.mul_comm _ _
  rw [h3] at hdm
  rcases Nat.lt_or_ge (p / t) E with hq | hq
  · have h1 : (p / t + 1) * t ≤ E * t := Nat.mul_le_mul_right t hq
    rw [Nat.add_mul, Nat.one_mul] at h1
    split <;> omega
  · have h1 : E * t ≤ p / t * t := Nat.mul_le_mul_right t hq
    have hr : p % t = 0 := by omega
    have hc : ¬ (t < 2 * (p % t) ∨ (2 * (p % t) = t ∧ p / t % 2 = 1)) := by
      rw [hr]; omega
    rw [if_neg hc]
    omega

/-- Rounding stays above a multiple of the unit that is a full unit below `p`. -/
theorem lt_roundToDouble (p E : Nat) (h : E * 2 ^ excessBits p p + 2 ^ excessBits p p ≤ p) :
    E * 2 ^ excessBits p p < roundToDouble p := by
  rw [roundToDouble_eq]
  have ht : 0 < 2 ^ excessBits p p := Nat.two_pow_pos _
  generalize 2 ^ excessBits p p = t at ht h ⊢
  have hdm := Nat.div_add_mod p t
  have hml := Nat.mod_lt p ht
  have h3 : t * (p / t) = p / t * t := Nat.mul_comm _ _
  rw [h3] at hdm
  rcases Nat.lt_or_ge E (p / t) with hq | hq
  · have h1 : (E + 1) * t ≤ p / t * t := Nat.mul_le_mul_right t hq
    rw [Nat.add_mul, Nat.one_mul] at h1
    split <;> omega
  · have h1 : p / t * t ≤ E * t := Nat.mul_le_mul_right t hq
    omega

/-- For every `int`-sized `n`, the double `n * 0.6` is at most the integer `d`
exactly when `3 * n ≤ 5 * d`: the rounding of the product never changes the
outcome of the comparison with an integer. -/
theorem timesPoint6_le_iff (n d : Nat) (hn : n ≤ 2 ^ 31) :
    timesPoint6 n ≤ d * 2 ^ 53 ↔ 3 * n ≤ 5 * d := by
  unfold timesPoint6
  generalize hp : n * 5404319552844595 = p
  have h31 : (2:Nat) ^ 31 = 2147483648 := by norm_num
  rw [h31] at hn
  have hsh : excessBits p p ≤ 31 := by
    apply excessBits_le
    have : (2:Nat) ^ (53 + 31) = 2147483648 * 9007199254740992 := by norm_num
    rw [this]
    omega
  obtain ⟨c, hc⟩ : ∃ c, (2:Nat) ^ 53 = c * 2 ^ excessBits p p :=
    ⟨2 ^ (53 - excessBits p p), by rw [← pow_add]; congr 1; omega⟩
  have ht31 : 2 ^ excessBits p p ≤ 2147483648 := by
    rw [← h31]; exact Nat.pow_le_pow_right (by norm_num) hsh
  have hD : d * 2 ^ 53 = (d * c) * 2 ^ excessBits p p := by rw [hc, Nat.mul_assoc]
  have h53 : (2:Nat) ^ 53 = 9007199254740992 := by norm_num
  constructor
  · intro hle
    by_contra hlt
    have := lt_roundToDouble p (d * c) (by rw [← hD, h53]; omega)
    rw [← hD] at this
    omega
  · intro hle
    rw [hD]
    apply roundToDouble_le
    rw [← hD, h53]
    omega

/-- Above the smallest `int`, `ABS` is the absolute value. -/
theorem ABS_eq_abs (x : Int) (h1 : -2147483647 ≤ x) (h2 : x ≤ 2147483647) : ABS x = |x| := by
  unfold ABS wrapInt
  split_ifs with h
  · rw [abs_of_nonneg h]
  · rw [abs_of_neg (by omega)]
    omega

/-- A motion of at most 5 pixels passes the source's tap test. -/
theorem ABS_lt_six (x : Int) (h : |x| ≤ 5) : ABS x < 6 := by
  have h2 := abs_le.1 h
  rw [ABS_eq_abs x (by omega) (by omega)]
  omega

/-- The source's threshold test on an `int` screen dimension and a motion
above the smallest `int` holds exactly when the motion is at least 60% of the
dimension. -/
theorem swipeReached_iff (diff dim : Int) (h : isInt dim)
    (h1 : -2147483647 ≤ diff) (h2 : diff ≤ 2147483647) :
    swipeReached diff dim = true ↔ 3 * |dim| ≤ 5 * |diff| := by
  unfold isInt at h
  have hn : dim.natAbs ≤ 2 ^ 31 := by
    have h31 : (2:Nat) ^ 31 = 2147483648 := by norm_num
    rw [h31]; omega
  have key := timesPoint6_le_iff dim.natAbs diff.natAbs hn
  unfold swipeReached
  rw [decide_eq_true_iff, ABS_eq_abs diff h1 h2, Int.abs_eq_natAbs, Int.abs_eq_natAbs]
  constructor
  · intro hle
    have h3 : timesPoint6 dim.natAbs ≤ diff.natAbs * 2 ^ 53 := by exact_mod_cast hle
    have := key.1 h3
    omega
  · intro hle
    have h3 : timesPoint6 dim.natAbs ≤ diff.natAbs * 2 ^ 53 := key.2 (by omega)
    exact_mod_cast h3

/-- A motion of at most 5 pixels never reaches 60% of a dimension of at
least 10 pixels. -/
theorem swipeReached_small (diff dim : Int) (h : isInt dim) (hdim : 10 ≤ dim)
    (hdiff : |diff| ≤ 5) : swipeReached diff dim = false := by
  have h2 := abs_le.1 hdiff
  rw [← Bool.not_eq_true, swipeReached_iff diff dim h (by omega) (by omega)]
  have : |dim| = dim := abs_of_nonneg (by omega)
  omega

/-! ## The outcomes of `handleMouseButtonUp`, pointer by pointer -/

/-- The three outcomes of releasing pointer 0. -/
theorem handleMouseButtonUp_pointer0 (env : Env) (s : State) (ev : SDL_Event) (event : Event)
    (hwhich : ev.which = 0) :
    handleMouseButtonUp env s ev event =
      if s.dragging = true ∧ s.specialAction = false then
        ⟨true, ⟨EVENT_LBUTTONUP, event.kbd, ⟨s.curX, s.curY⟩⟩,
         { s.cancelHeldClick with motionPtrIndex := -1, dragging := false }, []⟩
      else if ABS s.dragDiffX < 6 ∧ ABS s.dragDiffY < 6 ∧ s.blockLClick = false then
        ⟨true, ⟨EVENT_LBUTTONDOWN, event.kbd, ⟨s.curX, s.curY⟩⟩,
         { s.cancelHeldClick with motionPtrIndex := -1 },
         [Effect.pushEvent ⟨EVENT_LBUTTONUP, event.kbd, ⟨s.curX, s.curY⟩⟩]⟩
      else ⟨true, event, { s.cancelHeldClick with motionPtrIndex := -1 }, []⟩ := by
  by_cases hq : s.queuedInputEvent.type = EVENT_LBUTTONDOWN <;>
    simp [handleMouseButtonUp, Id.run, hwhich, hq, State.cancelHeldClick, processMouseEvent] <;>
    split_ifs <;> simp_all

/-- The outcomes of releasing pointer 1. -/
theorem handleMouseButtonUp_pointer1 (env : Env) (s : State) (ev : SDL_Event) (event : Event)
    (hwhich : ev.which = 1) :
    handleMouseButtonUp env s ev event =
      if swipeReached s.dragDiffY env.height = true then
        if s.dragDiffY ≤ 0 ∧ env.pdkVersion ≥ 300 then
          ⟨true, event, { s.cancelHeldClick with specialAction := true },
           [Effect.setKeyboardState true]⟩
        else if s.dragDiffY > 0 ∧ env.engine = true ∧ env.paused = false then
          ⟨true, event, { s.cancelHeldClick with specialAction := true },
           [Effect.openMainMenuDialog]⟩
        else secondFingerRest env { s.cancelHeldClick with specialAction := true } event
      else secondFingerRest env s.cancelHeldClick event := by
  by_cases hq : s.queuedInputEvent.type = EVENT_LBUTTONDOWN <;>
    simp [handleMouseButtonUp, Id.run, hwhich, hq, State.cancelHeldClick, processMouseEvent,
      secondFingerRest] <;>
    split_ifs <;> simp_all <;> omega

/-- The outcomes of releasing pointer 2. -/
theorem handleMouseButtonUp_pointer2 (env : Env) (s : State) (ev : SDL_Event) (event : Event)
    (hwhich : ev.which = 2) :
    handleMouseButtonUp env s ev event =
      if ABS s.dragDiffX < 6 ∧ ABS s.dragDiffY < 6 then
        ⟨true, ⟨EVENT_MBUTTONDOWN, event.kbd, ⟨s.curX, s.curY⟩⟩,
         { s.cancelHeldClick with blockLClick := true, blockRClick := true },
         [Effect.pushEvent ⟨EVENT_MBUTTONUP, event.kbd, ⟨s.curX, s.curY⟩⟩]⟩
      else ⟨true, event, s.cancelHeldClick, []⟩ := by
  by_cases hq : s.queuedInputEvent.type = EVENT_LBUTTONDOWN <;>
    simp [handleMouseButtonUp, Id.run, hwhich, hq, State.cancelHeldClick, processMouseEvent]

/-- Releasing any other pointer only stops a queued left click. -/
theorem handleMouseButtonUp_otherPointer (env : Env) (s : State) (ev : SDL_Event)
    (event : Event) (h0 : ev.which ≠ 0) (h1 : ev.which ≠ 1) (h2 : ev.which ≠ 2) :
    handleMouseButtonUp env s ev event = ⟨true, event, s.cancelHeldClick, []⟩ := by
  by_cases hq : s.queuedInputEvent.type = EVENT_LBUTTONDOWN <;>
    simp [handleMouseButtonUp, Id.run, h0, h1, h2, hq, State.cancelHeldClick]

/-- Stopping a queued left click only rewrites the type of the queue slot. -/
theorem State.cancelHeldClick_eq (s : State) :
    s.cancelHeldClick =
      { s with queuedInputEvent := { s.queuedInputEvent with
          type := if s.queuedInputEvent.type = EVENT_LBUTTONDOWN then EVENT_INVALID
                  else s.queuedInputEvent.type } } := by
  unfold State.cancelHeldClick
  split_ifs <;> rfl

/-- The four kinds of pointer a release can be for. -/
theorem which_cases (ev : SDL_Event) :
    ev.which = 0 ∨ ev.which = 1 ∨ ev.which = 2 ∨
      (ev.which ≠ 0 ∧ ev.which ≠ 1 ∧ ev.which ≠ 2) := by omega

/-! ## Taps, swipes, the delay queue and the modifier flags -/

/-- C1. Tap = left click: when drag mode is not active, a left click is not
blocked and the accumulated motion is at most 5 pixels on both axes, releasing
pointer 0 pushes exactly one `EVENT_LBUTTONUP` at `(curX, curY)` to the event
manager, leaves the event typed `EVENT_LBUTTONDOWN` at the same position,
returns true and sets `motionPtrIndex` to -1. -/
theorem handleMouseButtonUp_tap (env : Env) (s : State) (ev : SDL_Event) (event : Event)
    (hwhich : ev.which = 0) (hdrag : s.dragging = false) (hblock : s.blockLClick = false)
    (hx : |s.dragDiffX| ≤ 5) (hy : |s.dragDiffY| ≤ 5) :
    (handleMouseButtonUp env s ev event).effects =
        [Effect.pushEvent ⟨EVENT_LBUTTONUP, event.kbd, ⟨s.curX, s.curY⟩⟩] ∧
      (handleMouseButtonUp env s ev event).event =
        ⟨EVENT_LBUTTONDOWN, event.kbd, ⟨s.curX, s.curY⟩⟩ ∧
      (handleMouseButtonUp env s ev event).ret = true ∧
      (handleMouseButtonUp env s ev event).state.motionPtrIndex = -1 := by
  have hx' : ABS s.dragDiffX < 6 := ABS_lt_six _ hx
  have hy' : ABS s.dragDiffY < 6 := ABS_lt_six _ hy
  by_cases hq : s.queuedInputEvent.type = EVENT_LBUTTONDOWN <;>
    simp [handleMouseButtonUp, Id.run, processMouseEvent, hwhich, hdrag, hblock, hx', hy', hq]

/-- C1 at a concrete input: a touch at (100, 50) released after a motion of
(3, -5) pixels. -/
theorem handleMouseButtonUp_tap_witness :
    (handleMouseButtonUp (envAt 700)
        { State.init with curX := 100, curY := 50, dragDiffX := 3, dragDiffY := -5,
                          motionPtrIndex := 0 }
        (pointerEvent 0 100 50 0 0) blankEvent).effects =
      [Effect.pushEvent ⟨EVENT_LBUTTONUP, ⟨0, 0, 0⟩, ⟨100, 50⟩⟩] ∧
    (handleMouseButtonUp (envAt 700)
        { State.init with curX := 100, curY := 50, dragDiffX := 3, dragDiffY := -5,
                          motionPtrIndex := 0 }
        (pointerEvent 0 100 50 0 0) blankEvent).event =
      ⟨EVENT_LBUTTONDOWN, ⟨0, 0, 0⟩, ⟨100, 50⟩⟩ ∧
    (handleMouseButtonUp (envAt 700)
        { State.init with curX := 100, curY := 50, dragDiffX := 3, dragDiffY := -5,
                          motionPtrIndex := 0 }
        (pointerEvent 0 100 50 0 0) blankEvent).ret = true ∧
    (handleMouseButtonUp (envAt 700)
        { State.init with curX := 100, curY := 50, dragDiffX := 3, dragDiffY := -5,
                          motionPtrIndex := 0 }
        (pointerEvent 0 100 50 0 0) blankEvent).state.motionPtrIndex = -1 :=
  handleMouseButtonUp_tap (envAt 700)
    { State.init with curX := 100, curY := 50, dragDiffX := 3, dragDiffY := -5,
                      motionPtrIndex := 0 }
    (pointerEvent 0 100 50 0 0) blankEvent rfl rfl rfl (by decide) (by decide)

/-- C2. Multi-finger tap = right/middle click: with at most 5 pixels of
accumulated motion on both axes and a screen of at least 10x10 pixels,
(a) releasing pointer 1 while a right click is not blocked pushes exactly one
`EVENT_RBUTTONUP` at `(curX, curY)`, returns true with the event typed
`EVENT_RBUTTONDOWN` and sets `blockLClick`; (b) releasing pointer 2 pushes
exactly one `EVENT_MBUTTONUP` at `(curX, curY)`, returns true with the event
typed `EVENT_MBUTTONDOWN` and sets `blockLClick` and `blockRClick`.  In both
cases `specialAction` keeps its value and no key event is produced: the only
outside call is the push, and the queue slot is only cleared of a pending
`EVENT_LBUTTONDOWN`. -/
theorem handleMouseButtonUp_multiFingerTap (env : Env) (s : State) (ev : SDL_Event)
    (event : Event) (hx : |s.dragDiffX| ≤ 5) (hy : |s.dragDiffY| ≤ 5)
    (hW : isInt env.width) (hH : isInt env.height)
    (hw : 10 ≤ env.width) (hh : 10 ≤ env.height) :
    (ev.which = 1 → s.blockRClick = false →
      handleMouseButtonUp env s ev event =
        ⟨true, ⟨EVENT_RBUTTONDOWN, event.kbd, ⟨s.curX, s.curY⟩⟩,
         { s with
           queuedInputEvent :=
             if s.queuedInputEvent.type = EVENT_LBUTTONDOWN then
               { s.queuedInputEvent with type := EVENT_INVALID }
             else s.queuedInputEvent
           blockLClick := true },
         [Effect.pushEvent ⟨EVENT_RBUTTONUP, event.kbd, ⟨s.curX, s.curY⟩⟩]⟩) ∧
    (ev.which = 2 →
      handleMouseButtonUp env s ev event =
        ⟨true, ⟨EVENT_MBUTTONDOWN, event.kbd, ⟨s.curX, s.curY⟩⟩,
         { s with
           queuedInputEvent :=
             if s.queuedInputEvent.type = EVENT_LBUTTONDOWN then
               { s.queuedInputEvent with type := EVENT_INVALID }
             else s.queuedInputEvent
           blockLClick := true
           blockRClick := true },
         [Effect.pushEvent ⟨EVENT_MBUTTONUP, event.kbd, ⟨s.curX, s.curY⟩⟩]⟩) := by
  have hx' : ABS s.dragDiffX < 6 := ABS_lt_six _ hx
  have hy' : ABS s.dragDiffY < 6 := ABS_lt_six _ hy
  have hsx := swipeReached_small s.dragDiffX env.width hW hw hx
  have hsy := swipeReached_small s.dragDiffY env.height hH hh hy
  constructor
  · intro hwhich hblock
    by_cases hq : s.queuedInputEvent.type = EVENT_LBUTTONDOWN <;>
      simp [handleMouseButtonUp, Id.run, processMouseEvent, hwhich, hblock, hx', hy', hq,
        hsx, hsy]
  · intro hwhich
    by_cases hq : s.queuedInputEvent.type = EVENT_LBUTTONDOWN <;>
      simp [handleMouseButtonUp, Id.run, processMouseEvent, hwhich, hx', hy', hq]

/-- C2 at concrete inputs: a second-finger and a third-finger tap at (100, 50)
on a 480x320 screen. -/
theorem handleMouseButtonUp_multiFingerTap_witness :
    handleMouseButtonUp (envAt 700)
        { State.init with curX := 100, curY := 50, dragDiffX := 3, motionPtrIndex := 1 }
        (pointerEvent 1 200 60 0 0) blankEvent =
      ⟨true, ⟨EVENT_RBUTTONDOWN, ⟨0, 0, 0⟩, ⟨100, 50⟩⟩,
       { State.init with curX := 100, curY := 50, dragDiffX := 3, motionPtrIndex := 1,
                         blockLClick := true },
       [Effect.pushEvent ⟨EVENT_RBUTTONUP, ⟨0, 0, 0⟩, ⟨100, 50⟩⟩]⟩ ∧
    handleMouseButtonUp (envAt 700)
        { State.init with curX := 100, curY := 50, dragDiffX := 3, motionPtrIndex := 2 }
        (pointerEvent 2 200 60 0 0) blankEvent =
      ⟨true, ⟨EVENT_MBUTTONDOWN, ⟨0, 0, 0⟩, ⟨100, 50⟩⟩,
       { State.init with curX := 100, curY := 50, dragDiffX := 3, motionPtrIndex := 2,
                         blockLClick := true, blockRClick := true },
       [Effect.pushEvent ⟨EVENT_MBUTTONUP, ⟨0, 0, 0⟩, ⟨100, 50⟩⟩]⟩ :=
  ⟨(handleMouseButtonUp_multiFingerTap (envAt 700)
      { State.init with curX := 100, curY := 50, dragDiffX := 3, motionPtrIndex := 1 }
      (pointerEvent 1 200 60 0 0) blankEvent (by decide) (by decide) (by decide) (by decide)
      (by decide) (by decide)).1 rfl rfl,
   (handleMouseButtonUp_multiFingerTap (envAt 700)
      { State.init with curX := 100, curY := 50, dragDiffX := 3, motionPtrIndex := 2 }
      (pointerEvent 2 200 60 0 0) blankEvent (by decide) (by decide) (by decide) (by decide)
      (by decide) (by decide)).2 rfl⟩

/-- C4, as the claim states it, fails at the smallest `int`: with
`dragDiffY = -2147483648` on a 480x320 screen and PDK version 300 the
accumulated vertical motion is upward and far above 60% of the height, but
`ABS(dragDiffY)` wraps to a negative value, the vertical test fails, and the
release of pointer 1 sets no `specialAction`, requests no keyboard and
emulates a right click instead, pushing an `EVENT_RBUTTONUP`. -/
theorem handleMouseButtonUp_verticalSwipe_smallest_int :
    3 * |(envAt 1000).height| ≤ 5 * |(-2147483648 : Int)| ∧
    (-2147483648 : Int) ≤ 0 ∧ (envAt 1000).pdkVersion ≥ 300 ∧
    (handleMouseButtonUp (envAt 1000)
        { State.init with dragDiffY := -2147483648, motionPtrIndex := 1 }
        (pointerEvent 1 0 0 0 0) blankEvent).state.specialAction = false ∧
    (handleMouseButtonUp (envAt 1000)
        { State.init with dragDiffY := -2147483648, motionPtrIndex := 1 }
        (pointerEvent 1 0 0 0 0) blankEvent).effects =
      [Effect.pushEvent ⟨EVENT_RBUTTONUP, ⟨0, 0, 0⟩, ⟨0, 0⟩⟩] ∧
    (handleMouseButtonUp (envAt 1000)
        { State.init with dragDiffY := -2147483648, motionPtrIndex := 1 }
        (pointerEvent 1 0 0 0 0) blankEvent).event = ⟨EVENT_RBUTTONDOWN, ⟨0, 0, 0⟩, ⟨0, 0⟩⟩ := by
  decide

/-- C4, amended. Vertical swipe = keyboard or menu: for every state whose
`dragDiffY` is above the smallest `int`, when pointer 1 is released with an
accumulated vertical motion of at least 60% of the screen height,
`specialAction` is set; an upward swipe (`dragDiffY ≤ 0`) with PDK version at
least 300 requests the virtual keyboard and returns true at once; a downward
swipe (`dragDiffY > 0`) with an engine that is not paused opens the main menu
and returns true at once.  In both cases that call is the only outside call,
the event is not touched (no escape key) and the queue slot is only cleared
of a pending `EVENT_LBUTTONDOWN` at the entry of the handler.  The menu is
never opened for an upward swipe and the keyboard is never requested for a
downward one. -/
theorem handleMouseButtonUp_verticalSwipe (env : Env) (s : State) (ev : SDL_Event)
    (event : Event) (hwhich : ev.which = 1) (hH : isInt env.height)
    (hY : -2147483647 ≤ s.dragDiffY ∧ s.dragDiffY ≤ 2147483647)
    (hswipe : 3 * |env.height| ≤ 5 * |s.dragDiffY|) :
    (handleMouseButtonUp env s ev event).state.specialAction = true ∧
    (s.dragDiffY ≤ 0 → env.pdkVersion ≥ 300 →
      handleMouseButtonUp env s ev event =
        ⟨true, event,
         { s with
           queuedInputEvent :=
             if s.queuedInputEvent.type = EVENT_LBUTTONDOWN then
               { s.queuedInputEvent with type := EVENT_INVALID }
             else s.queuedInputEvent
           specialAction := true },
         [Effect.setKeyboardState true]⟩) ∧
    (s.dragDiffY > 0 → env.engine = true → env.paused = false →
      handleMouseButtonUp env s ev event =
        ⟨true, event,
         { s with
           queuedInputEvent :=
             if s.queuedInputEvent.type = EVENT_LBUTTONDOWN then
               { s.queuedInputEvent with type := EVENT_INVALID }
             else s.queuedInputEvent
           specialAction := true },
         [Effect.openMainMenuDialog]⟩) ∧
    (s.dragDiffY ≤ 0 →
      Effect.openMainMenuDialog ∉ (handleMouseButtonUp env s ev event).effects) ∧
    (s.dragDiffY > 0 →
      ∀ enabled, Effect.setKeyboardState enabled ∉
        (handleMouseButtonUp env s ev event).effects) := by
  have hsy : swipeReached s.dragDiffY env.height = true :=
    (swipeReached_iff _ _ hH hY.1 hY.2).2 hswipe
  refine ⟨?_, ?_, ?_, ?_, ?_⟩
  · rw [handleMouseButtonUp_pointer1 env s ev event hwhich, if_pos hsy]
    unfold secondFingerRest
    split_ifs <;> simp
  · intro hup hpdk
    rw [handleMouseButtonUp_pointer1 env s ev event hwhich, if_pos hsy, if_pos ⟨hup, hpdk⟩]
    by_cases hq : s.queuedInputEvent.type = EVENT_LBUTTONDOWN <;>
      simp [State.cancelHeldClick, hq]
  · intro hdown heng hpau
    have hup : ¬ (s.dragDiffY ≤ 0 ∧ env.pdkVersion ≥ 300) := by omega
    rw [handleMouseButtonUp_pointer1 env s ev event hwhich, if_pos hsy, if_neg hup,
      if_pos ⟨hdown, heng, hpau⟩]
    by_cases hq : s.queuedInputEvent.type = EVENT_LBUTTONDOWN <;>
      simp [State.cancelHeldClick, hq]
  · intro hup
    have hdown : ¬ (s.dragDiffY > 0 ∧ env.engine = true ∧ env.paused = false) := by omega
    rw [handleMouseButtonUp_pointer1 env s ev event hwhich, if_pos hsy, if_neg hdown]
    unfold secondFingerRest
    split_ifs <;> simp
  · intro hdown enabled
    have hup : ¬ (s.dragDiffY ≤ 0 ∧ env.pdkVersion ≥ 300) := by omega
    rw [handleMouseButtonUp_pointer1 env s ev event hwhich, if_pos hsy, if_neg hup]
    unfold secondFingerRest
    split_ifs <;> simp

/-- C4 at concrete inputs: an upward and a downward swipe of 200 pixels on a
480x320 screen. -/
theorem handleMouseButtonUp_verticalSwipe_witness :
    handleMouseButtonUp (envAt 1000) { State.init with dragDiffY := -200, motionPtrIndex := 1 }
        (pointerEvent 1 0 0 0 0) blankEvent =
      ⟨true, blankEvent,
       { State.init with dragDiffY := -200, motionPtrIndex := 1, specialAction := true },
       [Effect.setKeyboardState true]⟩ ∧
    handleMouseButtonUp (envAt 1000) { State.init with dragDiffY := 200, motionPtrIndex := 1 }
        (pointerEvent 1 0 0 0 0) blankEvent =
      ⟨true, blankEvent,
       { State.init with dragDiffY := 200, motionPtrIndex := 1, specialAction := true },
       [Effect.openMainMenuDialog]⟩ :=
  ⟨(handleMouseButtonUp_verticalSwipe (envAt 1000)
      { State.init with dragDiffY := -200, motionPtrIndex := 1 } (pointerEvent 1 0 0 0 0)
      blankEvent rfl (by decide) (by decide) (by decide)).2.1 (by decide) (by decide),
   (handleMouseButtonUp_verticalSwipe (envAt 1000)
      { State.init with dragDiffY := 200, motionPtrIndex := 1 } (pointerEvent 1 0 0 0 0)
      blankEvent rfl (by decide) (by decide) (by decide)).2.2.1 (by decide) rfl rfl⟩

/-- C5. One-slot delay queue: if the slot holds an event (type not 0) and the
current time has reached `queuedEventTime`, `pollEvent` returns true with the
queued event (positioned at `(curX, curY)` when it is `EVENT_LBUTTONDOWN`),
empties the slot and does not consult the base poll (the result is the same
for every base); otherwise the result of `pollEvent` is the result of the base
poll on the untouched statics.  After a delivery the slot is empty, so the
next `pollEvent` goes to the base poll whatever the time: a queued event is
delivered at most once, and never before its due time. -/
theorem pollEvent_queue (base : State → Event → Result) (env : Env) (s : State)
    (event : Event) :
    (s.queuedInputEvent.type ≠ EVENT_INVALID → env.now ≥ s.queuedEventTime →
      pollEvent base env s event =
        ⟨true,
         if s.queuedInputEvent.type = EVENT_LBUTTONDOWN then
           { s.queuedInputEvent with mouse := ⟨s.curX, s.curY⟩ }
         else s.queuedInputEvent,
         { s with queuedInputEvent := { s.queuedInputEvent with type := EVENT_INVALID } },
         []⟩ ∧
      ∀ (base2 : State → Event → Result) (env2 : Env) (event2 : Event),
        pollEvent base2 env2 (pollEvent base env s event).state event2 =
          base2 (pollEvent base env s event).state event2) ∧
    (s.queuedInputEvent.type = EVENT_INVALID ∨ env.now < s.queuedEventTime →
      pollEvent base env s event = base s event) := by
  constructor
  · intro htype htime
    have hres : pollEvent base env s event =
        ⟨true,
         if s.queuedInputEvent.type = EVENT_LBUTTONDOWN then
           { s.queuedInputEvent with mouse := ⟨s.curX, s.curY⟩ }
         else s.queuedInputEvent,
         { s with queuedInputEvent := { s.queuedInputEvent with type := EVENT_INVALID } },
         []⟩ := by
      simp [pollEvent, processMouseEvent, htype, htime]
    refine ⟨hres, ?_⟩
    intro base2 env2 event2
    rw [hres]
    simp [pollEvent]
  · intro h
    have hcond : ¬ (s.queuedInputEvent.type ≠ EVENT_INVALID ∧ env.now ≥ s.queuedEventTime) := by
      rintro ⟨h1, h2⟩
      rcases h with h | h
      · exact h1 h
      · omega
    simp only [pollEvent, if_neg hcond]

/-- C5 at concrete inputs: a key-up queued for time 1250 is delivered by a
poll at time 1250 and left alone by a poll at time 1249. -/
theorem pollEvent_queue_witness :
    pollEvent idlePoll (envAt 1250)
        { State.init with queuedInputEvent := ⟨EVENT_KEYUP, ⟨27, 27, 0⟩, ⟨0, 0⟩⟩,
                          queuedEventTime := 1250 } blankEvent =
      ⟨true, ⟨EVENT_KEYUP, ⟨27, 27, 0⟩, ⟨0, 0⟩⟩,
       { State.init with queuedInputEvent := ⟨EVENT_INVALID, ⟨27, 27, 0⟩, ⟨0, 0⟩⟩,
                         queuedEventTime := 1250 }, []⟩ ∧
    pollEvent idlePoll (envAt 1249)
        { State.init with queuedInputEvent := ⟨EVENT_KEYUP, ⟨27, 27, 0⟩, ⟨0, 0⟩⟩,
                          queuedEventTime := 1250 } blankEvent =
      idlePoll { State.init with queuedInputEvent := ⟨EVENT_KEYUP, ⟨27, 27, 0⟩, ⟨0, 0⟩⟩,
                                 queuedEventTime := 1250 } blankEvent :=
  ⟨((pollEvent_queue idlePoll (envAt 1250)
      { State.init with queuedInputEvent := ⟨EVENT_KEYUP, ⟨27, 27, 0⟩, ⟨0, 0⟩⟩,
                        queuedEventTime := 1250 } blankEvent).1 (by decide) (by decide)).1,
   (pollEvent_queue idlePoll (envAt 1249)
      { State.init with queuedInputEvent := ⟨EVENT_KEYUP, ⟨27, 27, 0⟩, ⟨0, 0⟩⟩,
                        queuedEventTime := 1250 } blankEvent).2 (Or.inr (by decide))⟩

/-- The flags computed from two bits of choice are one of eight values. -/
theorem flags_cases (a b c : Bool) :
    let flags := ((if a then 0 ||| KBD_SHIFT else 0) : Nat)
    let flags := if b then flags ||| KBD_CTRL else flags
    let flags := if c then flags ||| KBD_ALT else flags
    flags = (if a then KBD_SHIFT else 0) ||| (if b then KBD_CTRL else 0) |||
        (if c then KBD_ALT else 0) ∧
      (flags &&& KBD_SHIFT ≠ 0 ↔ a = true) ∧ (flags &&& KBD_CTRL ≠ 0 ↔ b = true) ∧
      (flags &&& KBD_ALT ≠ 0 ↔ c = true) ∧
      flags &&& (KBD_SHIFT ||| KBD_CTRL ||| KBD_ALT) = flags := by
  cases a <;> cases b <;> cases c <;> decide

/-- Two masks that differ only in bits outside `m` have the same `m` bits. -/
theorem and_eq_of_xor_and (x y g m : Nat) (h : (x ^^^ y) &&& g = x ^^^ y)
    (hgm : g &&& m = 0) : x &&& m = y &&& m := by
  have h1 : (x ^^^ y) &&& m = 0 := by
    rw [← h, Nat.and_assoc, hgm, Nat.and_zero]
  rw [Nat.and_xor_distrib_right] at h1
  exact Nat.xor_eq_zero.1 h1

/-- C6. Modifier translation: `SDLModToOSystemKeyFlags` sets `event.kbd.flags`
to exactly the union of `KBD_SHIFT` (iff `mod` has a `KMOD_SHIFT` bit),
`KBD_CTRL` (iff `mod` has a `KMOD_CTRL` bit) and `KBD_ALT` (iff `gestureDown`),
with no other flag bit; the rest of the event is unchanged; and the flags
depend neither on the previous content of the event nor on the
ALT/META/NUM/CAPS bits of `mod`. -/
theorem SDLModToOSystemKeyFlags_flags (s : State) (mod : Nat) (event : Event) :
    (SDLModToOSystemKeyFlags s mod event).kbd.flags =
      (if mod &&& KMOD_SHIFT ≠ 0 then KBD_SHIFT else 0) |||
      (if mod &&& KMOD_CTRL ≠ 0 then KBD_CTRL else 0) |||
      (if s.gestureDown = true then KBD_ALT else 0) ∧
    ((SDLModToOSystemKeyFlags s mod event).kbd.flags &&& KBD_SHIFT ≠ 0 ↔
      mod &&& KMOD_SHIFT ≠ 0) ∧
    ((SDLModToOSystemKeyFlags s mod event).kbd.flags &&& KBD_CTRL ≠ 0 ↔
      mod &&& KMOD_CTRL ≠ 0) ∧
    ((SDLModToOSystemKeyFlags s mod event).kbd.flags &&& KBD_ALT ≠ 0 ↔
      s.gestureDown = true) ∧
    (SDLModToOSystemKeyFlags s mod event).kbd.flags &&& (KBD_SHIFT ||| KBD_CTRL ||| KBD_ALT) =
      (SDLModToOSystemKeyFlags s mod event).kbd.flags ∧
    SDLModToOSystemKeyFlags s mod event =
      { event with kbd := { event.kbd with
          flags := (SDLModToOSystemKeyFlags s mod event).kbd.flags } } ∧
    (∀ (mod2 : Nat) (event2 : Event), (mod ^^^ mod2) &&& KMOD_IGNORED = mod ^^^ mod2 →
      (SDLModToOSystemKeyFlags s mod2 event2).kbd.flags =
        (SDLModToOSystemKeyFlags s mod event).kbd.flags) := by
  have key : ∀ (m : Nat) (e : Event), (SDLModToOSystemKeyFlags s m e).kbd.flags =
      (let flags := ((if decide (m &&& KMOD_SHIFT ≠ 0) then 0 ||| KBD_SHIFT else 0) : Nat)
       let flags := if decide (m &&& KMOD_CTRL ≠ 0) then flags ||| KBD_CTRL else flags
       if s.gestureDown then flags ||| KBD_ALT else flags) := by
    intro m e
    simp [SDLModToOSystemKeyFlags]
  have hc := flags_cases (decide (mod &&& KMOD_SHIFT ≠ 0)) (decide (mod &&& KMOD_CTRL ≠ 0))
    s.gestureDown
  simp only [decide_eq_true_eq] at hc key
  rw [key mod event]
  refine ⟨by simpa using hc.1, hc.2.1, hc.2.2.1, hc.2.2.2.1, hc.2.2.2.2, ?_, ?_⟩
  · rw [← key mod event]
    rfl
  · intro mod2 event2 h
    rw [key mod2 event2]
    have h1 := and_eq_of_xor_and mod mod2 KMOD_IGNORED KMOD_SHIFT h (by decide)
    have h2 := and_eq_of_xor_and mod mod2 KMOD_IGNORED KMOD_CTRL h (by decide)
    rw [h1, h2]

/-- C6 at concrete inputs: left shift, right control and left alt with the
gesture area released give shift and control only, and the mask without the
alt bit gives the same flags. -/
theorem SDLModToOSystemKeyFlags_flags_witness :
    (SDLModToOSystemKeyFlags State.init 0x0181 blankEvent).kbd.flags = 5 ∧
    (SDLModToOSystemKeyFlags State.init 0x0081 ⟨EVENT_KEYDOWN, ⟨97, 97, 7⟩, ⟨0, 0⟩⟩).kbd.flags =
      (SDLModToOSystemKeyFlags State.init 0x0181 blankEvent).kbd.flags :=
  ⟨(SDLModToOSystemKeyFlags_flags State.init 0x0181 blankEvent).1,
   (SDLModToOSystemKeyFlags_flags State.init 0x0181 blankEvent).2.2.2.2.2.2 0x0081
     ⟨EVENT_KEYDOWN, ⟨97, 97, 7⟩, ⟨0, 0⟩⟩ (by decide)⟩

/-! ## The gesture area -/

/-- Running a sequence extended by one call. -/
theorem run_concat (b : BaseKeys) (s : State) (cs : List Call) (c : Call) :
    run b s (cs ++ [c]) = (c.exec b (run b s cs)).state := by
  simp [run, List.foldl_append]

/-- Running a sequence that starts with a call. -/
theorem run_cons (b : BaseKeys) (s : State) (c : Call) (cs : List Call) :
    run b s (c :: cs) = run b (c.exec b s).state cs := rfl

/-- Effect of `handleMouseButtonDown` on the gesture flag: none. -/
theorem handleMouseButtonDown_gestureDown (env : Env) (s : State) (ev : SDL_Event)
    (event : Event) : (handleMouseButtonDown env s ev event).state.gestureDown = s.gestureDown := by
  simp only [handleMouseButtonDown]
  split_ifs <;> rfl

/-- Effect of `handleMouseButtonUp` on the gesture flag: none. -/
theorem handleMouseButtonUp_gestureDown (env : Env) (s : State) (ev : SDL_Event)
    (event : Event) : (handleMouseButtonUp env s ev event).state.gestureDown = s.gestureDown := by
  rcases which_cases ev with h | h | h | ⟨h0, h1, h2⟩
  · rw [handleMouseButtonUp_pointer0 env s ev event h]
    split_ifs <;> simp [State.cancelHeldClick_eq]
  · rw [handleMouseButtonUp_pointer1 env s ev event h]
    unfold secondFingerRest
    split_ifs <;> simp [State.cancelHeldClick_eq]
  · rw [handleMouseButtonUp_pointer2 env s ev event h]
    split_ifs <;> simp [State.cancelHeldClick_eq]
  · rw [handleMouseButtonUp_otherPointer env s ev event h0 h1 h2]
    simp [State.cancelHeldClick_eq]

/-- Effect of `handleMouseMotion` on the gesture flag: none. -/
theorem handleMouseMotion_gestureDown (env : Env) (s : State) (ev : SDL_Event)
    (event : Event) : (handleMouseMotion env s ev event).state.gestureDown = s.gestureDown := by
  simp only [handleMouseMotion, Id.run]
  simp
  split_ifs <;> simp

/-- Effect of `pollEvent` over the idle base poll on the gesture flag: none. -/
theorem pollEvent_gestureDown (env : Env) (s : State) (event : Event) :
    (pollEvent idlePoll env s event).state.gestureDown = s.gestureDown := by
  simp only [pollEvent, idlePoll]
  split_ifs <;> rfl

/-- The gesture flag after `handleKeyDown`. -/
theorem handleKeyDown_gestureDown (base : State → SDL_Event → Event → Bool × Event)
    (env : Env) (s : State) (ev : SDL_Event) (event : Event) :
    (handleKeyDown base env s ev event).state.gestureDown =
      if ev.sym = SDLK_WORLD_71 then true
      else if ev.sym = 27 ∨ ev.sym = 229 then false else s.gestureDown := by
  unfold handleKeyDown
  split_ifs <;> rfl

/-- The gesture flag after `handleKeyUp`. -/
theorem handleKeyUp_gestureDown (base : State → SDL_Event → Event → Bool × Event)
    (env : Env) (s : State) (ev : SDL_Event) (event : Event) :
    (handleKeyUp base env s ev event).state.gestureDown =
      if ev.sym = SDLK_WORLD_71 then false else s.gestureDown := by
  unfold handleKeyUp
  split_ifs <;> rfl

/-- The gesture flag after one call. -/
theorem exec_gestureDown (b : BaseKeys) (c : Call) (s : State) :
    (c.exec b s).state.gestureDown =
      if c.isGesturePress = true then true
      else if c.isGestureRelease = true then false else s.gestureDown := by
  obtain ⟨h, env, ev, event⟩ := c
  cases h
  · simp [Call.exec, Call.isGesturePress, Call.isGestureRelease, pollEvent_gestureDown]
  · simp only [Call.exec, Call.isGesturePress, Call.isGestureRelease,
      handleKeyDown_gestureDown]
    by_cases h1 : ev.sym = SDLK_WORLD_71 <;> by_cases h2 : ev.sym = 27 ∨ ev.sym = 229 <;>
      simp [h1, h2]
  · simp only [Call.exec, Call.isGesturePress, Call.isGestureRelease,
      handleKeyUp_gestureDown]
    by_cases h1 : ev.sym = SDLK_WORLD_71 <;> simp [h1]
  · simp [Call.exec, Call.isGesturePress, Call.isGestureRelease,
      handleMouseButtonDown_gestureDown]
  · simp [Call.exec, Call.isGesturePress, Call.isGestureRelease,
      handleMouseButtonUp_gestureDown]
  · simp [Call.exec, Call.isGesturePress, Call.isGestureRelease,
      handleMouseMotion_gestureDown]

/-- The gesture flag after a sequence of calls from the initial statics is set
exactly when some gesture press is followed by no gesture press or release. -/
theorem run_gestureDown (b : BaseKeys) (cs : List Call) :
    (run b State.init cs).gestureDown = true ↔
      ∃ pre c post, cs = pre ++ c :: post ∧ c.isGesturePress = true ∧
        ∀ d ∈ post, d.isGesturePress = false ∧ d.isGestureRelease = false := by
  induction cs using List.reverseRecOn with
  | nil =>
    constructor
    · intro h
      simp [run, State.init] at h
    · rintro ⟨pre, c, post, h, _⟩
      exact absurd h (by simp)
  | append_singleton cs c ih =>
    rw [run_concat, exec_gestureDown]
    have split : ∀ pre c2 post, cs ++ [c] = pre ++ c2 :: post →
        (post = [] ∧ pre = cs ∧ c2 = c) ∨ ∃ post2, post = post2 ++ [c] ∧ cs = pre ++ c2 :: post2 := by
      intro pre c2 post h
      rcases List.eq_nil_or_concat post with rfl | ⟨post2, d, rfl⟩
      · left
        have h2 : cs ++ [c] = pre ++ [c2] := h
        have := List.append_inj' h2 rfl
        refine ⟨rfl, this.1.symm, ?_⟩
        simpa using this.2.symm
      · right
        have h2 : cs ++ [c] = (pre ++ c2 :: post2) ++ [d] := by simpa using h
        have := List.append_inj' h2 rfl
        have hd : c = d := by simpa using this.2
        exact ⟨post2, by rw [hd, List.concat_eq_append], this.1⟩
    by_cases hp : c.isGesturePress = true
    · rw [if_pos hp]
      exact ⟨fun _ => ⟨cs, c, [], rfl, hp, by simp⟩, fun _ => rfl⟩
    · by_cases hr : c.isGestureRelease = true
      · rw [if_neg hp, if_pos hr]
        constructor
        · intro h; exact absurd h (by decide)
        · rintro ⟨pre, c2, post, h, hc2, hpost⟩
          rcases split pre c2 post h with ⟨_, _, rfl⟩ | ⟨post2, rfl, _⟩
          · exact absurd hc2 hp
          · have := (hpost c (by simp)).2
            rw [hr] at this
            exact absurd this (by decide)
      · rw [if_neg hp, if_neg hr, ih]
        constructor
        · rintro ⟨pre, c2, post, rfl, hc2, hpost⟩
          refine ⟨pre, c2, post ++ [c], by simp, hc2, ?_⟩
          intro d hd
          rcases List.mem_append.1 hd with hd | hd
          · exact hpost d hd
          · have : d = c := by simpa using hd
            subst this
            exact ⟨by simpa using hp, by simpa using hr⟩
        · rintro ⟨pre, c2, post, h, hc2, hpost⟩
          rcases split pre c2 post h with ⟨_, _, rfl⟩ | ⟨post2, rfl, hcs⟩
          · exact absurd hc2 hp
          · exact ⟨pre, c2, post2, hcs, hc2, fun d hd => hpost d (by simp [hd])⟩

/-- C7. Gesture-strip Alt state: after every sequence of handler calls from
the initial statics, `gestureDown` is true exactly when the most recent call
among key-down of `SDLK_WORLD_71`, key-up of `SDLK_WORLD_71`, key-down of 27
and key-down of 229 is a key-down of `SDLK_WORLD_71` (false if there is none).
Key-down and key-up of `SDLK_WORLD_71` return true without the base handler
(the result does not depend on it); key-down of 27 or 229 clears `gestureDown`
and returns what the base handler returns on the cleared statics; no other
call, of a key or a mouse handler or of `pollEvent`, changes `gestureDown`. -/
theorem gestureDown_tracks_gesture_area (b : BaseKeys) :
    (∀ cs : List Call, (run b State.init cs).gestureDown = true ↔
      ∃ pre c post, cs = pre ++ c :: post ∧ c.isGesturePress = true ∧
        ∀ d ∈ post, d.isGesturePress = false ∧ d.isGestureRelease = false) ∧
    (∀ (env : Env) (s : State) (ev : SDL_Event) (event : Event), ev.sym = SDLK_WORLD_71 →
      handleKeyDown b.handleKeyDown env s ev event =
        ⟨true, event, { s with gestureDown := true }, []⟩ ∧
      handleKeyUp b.handleKeyUp env s ev event =
        ⟨true, event, { s with gestureDown := false }, []⟩) ∧
    (∀ (env : Env) (s : State) (ev : SDL_Event) (event : Event), ev.sym = 27 ∨ ev.sym = 229 →
      handleKeyDown b.handleKeyDown env s ev event =
        ⟨(b.handleKeyDown { s with gestureDown := false } ev event).1,
         (b.handleKeyDown { s with gestureDown := false } ev event).2,
         { s with gestureDown := false }, []⟩) ∧
    (∀ (c : Call) (s : State), c.isGesturePress = false → c.isGestureRelease = false →
      (c.exec b s).state.gestureDown = s.gestureDown) := by
  refine ⟨run_gestureDown b, ?_, ?_, ?_⟩
  · intro env s ev event h
    simp [handleKeyDown, handleKeyUp, h]
  · intro env s ev event h
    have h1 : ev.sym ≠ SDLK_WORLD_71 := by
      unfold SDLK_WORLD_71; omega
    have h2 : ev.sym ≠ 24 := by omega
    simp [handleKeyDown, h1, h2, h]
  · intro c s hp hr
    rw [exec_gestureDown]
    simp [hp, hr]

/-- C7 at a concrete sequence: gesture area pressed, a touch, the back gesture
(key 27), then the gesture area pressed again and a key `a` typed. -/
theorem gestureDown_tracks_gesture_area_witness :
    (run noBaseKeys State.init
      [callAt Handler.handleKeyDown 0 (keyEvent 231 0),
       callAt Handler.handleMouseButtonDown 10 (pointerEvent 0 5 5 0 0),
       callAt Handler.handleKeyDown 20 (keyEvent 27 0),
       callAt Handler.handleKeyDown 30 (keyEvent 231 0),
       callAt Handler.handleKeyDown 40 (keyEvent 97 0)]).gestureDown = true :=
  ((gestureDown_tracks_gesture_area noBaseKeys).1 _).2
    ⟨[callAt Handler.handleKeyDown 0 (keyEvent 231 0),
      callAt Handler.handleMouseButtonDown 10 (pointerEvent 0 5 5 0 0),
      callAt Handler.handleKeyDown 20 (keyEvent 27 0)],
     callAt Handler.handleKeyDown 30 (keyEvent 231 0),
     [callAt Handler.handleKeyDown 40 (keyEvent 97 0)], rfl, by decide, by decide⟩

/-! ## Click blocking -/

/-- A pushed right-button release comes with `blockLClick`, a pushed
middle-button release with `blockLClick` and `blockRClick`. -/
theorem handleMouseButtonUp_push_blocks (env : Env) (s : State) (ev : SDL_Event)
    (event e : Event) (hpush : Effect.pushEvent e ∈ (handleMouseButtonUp env s ev event).effects) :
    (e.type = EVENT_RBUTTONUP ∨ e.type = EVENT_MBUTTONUP →
      (handleMouseButtonUp env s ev event).state.blockLClick = true) ∧
    (e.type = EVENT_MBUTTONUP →
      (handleMouseButtonUp env s ev event).state.blockRClick = true) := by
  rcases which_cases ev with h | h | h | ⟨h0, h1, h2⟩
  · rw [handleMouseButtonUp_pointer0 env s ev event h] at hpush ⊢
    split_ifs at hpush ⊢ <;> simp_all
  · rw [handleMouseButtonUp_pointer1 env s ev event h] at hpush ⊢
    unfold secondFingerRest at hpush ⊢
    split_ifs at hpush ⊢ <;> simp_all
  · rw [handleMouseButtonUp_pointer2 env s ev event h] at hpush ⊢
    split_ifs at hpush ⊢ <;> simp_all
  · rw [handleMouseButtonUp_otherPointer env s ev event h0 h1 h2] at hpush ⊢
    simp_all

/-- The `handleMouseButtonUp` handler never clears a block flag. -/
theorem handleMouseButtonUp_keeps_blocks (env : Env) (s : State) (ev : SDL_Event)
    (event : Event) :
    (s.blockLClick = true → (handleMouseButtonUp env s ev event).state.blockLClick = true) ∧
    (s.blockRClick = true → (handleMouseButtonUp env s ev event).state.blockRClick = true) := by
  rcases which_cases ev with h | h | h | ⟨h0, h1, h2⟩
  · rw [handleMouseButtonUp_pointer0 env s ev event h]
    split_ifs <;> simp [State.cancelHeldClick_eq]
  · rw [handleMouseButtonUp_pointer1 env s ev event h]
    unfold secondFingerRest
    split_ifs <;> simp [State.cancelHeldClick_eq]
  · rw [handleMouseButtonUp_pointer2 env s ev event h]
    split_ifs <;> simp [State.cancelHeldClick_eq]
  · rw [handleMouseButtonUp_otherPointer env s ev event h0 h1 h2]
    simp [State.cancelHeldClick_eq]

/-- With `blockLClick` set, releasing pointer 0 pushes nothing and either
leaves the event alone or sends the mouse-up of a drag. -/
theorem handleMouseButtonUp_left_blocked (env : Env) (s : State) (ev : SDL_Event)
    (event : Event) (hwhich : ev.which = 0) (hblock : s.blockLClick = true) :
    (handleMouseButtonUp env s ev event).effects = [] ∧
    ((handleMouseButtonUp env s ev event).event = event ∨
      (handleMouseButtonUp env s ev event).event =
        ⟨EVENT_LBUTTONUP, event.kbd, ⟨s.curX, s.curY⟩⟩) := by
  rw [handleMouseButtonUp_pointer0 env s ev event hwhich]
  split_ifs <;> simp_all

/-- With `blockRClick` set, releasing pointer 1 pushes no event and either
leaves the event alone or sends the escape key. -/
theorem handleMouseButtonUp_right_blocked (env : Env) (s : State) (ev : SDL_Event)
    (event : Event) (hwhich : ev.which = 1) (hblock : s.blockRClick = true) :
    (∀ e, Effect.pushEvent e ∉ (handleMouseButtonUp env s ev event).effects) ∧
    ((handleMouseButtonUp env s ev event).event = event ∨
      (handleMouseButtonUp env s ev event).event =
        ⟨EVENT_KEYDOWN, ⟨KEYCODE_ESCAPE, ASCII_ESCAPE, 0⟩, event.mouse⟩) := by
  rw [handleMouseButtonUp_pointer1 env s ev event hwhich]
  unfold secondFingerRest
  split_ifs <;> simp_all [State.cancelHeldClick_eq]

/-- The `handleMouseMotion` handler does not touch the block flags. -/
theorem handleMouseMotion_blocks (env : Env) (s : State) (ev : SDL_Event) (event : Event) :
    (handleMouseMotion env s ev event).state.blockLClick = s.blockLClick ∧
    (handleMouseMotion env s ev event).state.blockRClick = s.blockRClick := by
  simp only [handleMouseMotion, Id.run]
  simp
  split_ifs <;> simp

/-- A call that does not start a touch clears no block flag. -/
theorem exec_keeps_blocks (b : BaseKeys) (c : Call) (s : State)
    (hc : c.isFirstTouch s = false) :
    (s.blockLClick = true → (c.exec b s).state.blockLClick = true) ∧
    (s.blockRClick = true → (c.exec b s).state.blockRClick = true) := by
  obtain ⟨h, env, ev, event⟩ := c
  cases h
  · simp only [Call.exec, pollEvent, idlePoll]
    split_ifs <;> simp
  · simp only [Call.exec, handleKeyDown]
    split_ifs <;> simp
  · simp only [Call.exec, handleKeyUp]
    split_ifs <;> simp
  · have hptr : s.motionPtrIndex ≠ -1 := by simpa [Call.isFirstTouch] using hc
    simp only [Call.exec, handleMouseButtonDown, if_neg hptr]
    split_ifs <;> simp
  · exact handleMouseButtonUp_keeps_blocks env s ev event
  · have := handleMouseMotion_blocks env s ev event
    simp only [Call.exec]
    rw [this.1, this.2]
    exact ⟨id, id⟩

/-- Within one touch the block flags stay set. -/
theorem run_keeps_blocks (b : BaseKeys) (cs : List Call) :
    ∀ s : State, sameTouch b s cs = true →
      (s.blockLClick = true → (run b s cs).blockLClick = true) ∧
      (s.blockRClick = true → (run b s cs).blockRClick = true) := by
  induction cs with
  | nil => intro s _; exact ⟨id, id⟩
  | cons c cs ih =>
    intro s h
    simp only [sameTouch, Bool.and_eq_true, Bool.not_eq_true'] at h
    have h1 := exec_keeps_blocks b c s h.1
    have h2 := ih (c.exec b s).state h.2
    rw [run_cons]
    exact ⟨fun hl => h2.1 (h1.1 hl), fun hr => h2.2 (h1.2 hr)⟩


/-- C8, as the claim states it, fails on the caller's event: after an
emulated middle click and a small motion of the first finger in the same
touch, the blocked release of pointer 0 pushes nothing and does not write the
event, so when the caller passes an event already typed `EVENT_LBUTTONDOWN`
the handler returns true with that event still typed `EVENT_LBUTTONDOWN`;
likewise the blocked release of pointer 1 returns the caller's
`EVENT_RBUTTONDOWN`. -/
theorem click_blocking_caller_event :
    Effect.pushEvent ⟨EVENT_MBUTTONUP, ⟨0, 0, 0⟩, ⟨100, 50⟩⟩ ∈
      (handleMouseButtonUp (envAt 700)
        { State.init with curX := 100, curY := 50, motionPtrIndex := 2 }
        (pointerEvent 2 200 60 0 0) blankEvent).effects ∧
    sameTouch noBaseKeys
      (handleMouseButtonUp (envAt 700)
        { State.init with curX := 100, curY := 50, motionPtrIndex := 2 }
        (pointerEvent 2 200 60 0 0) blankEvent).state
      [callAt Handler.handleMouseMotion 800 (pointerEvent 0 101 50 1 0)] = true ∧
    handleMouseButtonUp (envAt 900)
        (run noBaseKeys
          (handleMouseButtonUp (envAt 700)
            { State.init with curX := 100, curY := 50, motionPtrIndex := 2 }
            (pointerEvent 2 200 60 0 0) blankEvent).state
          [callAt Handler.handleMouseMotion 800 (pointerEvent 0 101 50 1 0)])
        (pointerEvent 0 101 50 0 0) ⟨EVENT_LBUTTONDOWN, ⟨0, 0, 0⟩, ⟨7, 7⟩⟩ =
      ⟨true, ⟨EVENT_LBUTTONDOWN, ⟨0, 0, 0⟩, ⟨7, 7⟩⟩,
       { State.init with curX := 101, curY := 50, dragDiffX := 1, motionPtrIndex := -1,
                         blockLClick := true, blockRClick := true }, []⟩ ∧
    handleMouseButtonUp (envAt 900)
        (run noBaseKeys
          (handleMouseButtonUp (envAt 700)
            { State.init with curX := 100, curY := 50, motionPtrIndex := 2 }
            (pointerEvent 2 200 60 0 0) blankEvent).state
          [callAt Handler.handleMouseMotion 800 (pointerEvent 0 101 50 1 0)])
        (pointerEvent 1 200 60 0 0) ⟨EVENT_RBUTTONDOWN, ⟨0, 0, 0⟩, ⟨7, 7⟩⟩ =
      ⟨true, ⟨EVENT_RBUTTONDOWN, ⟨0, 0, 0⟩, ⟨7, 7⟩⟩,
       { State.init with curX := 101, curY := 50, dragDiffX := 1, motionPtrIndex := 2,
                         blockLClick := true, blockRClick := true }, []⟩ := by
  decide

/-- C8, amended. Click blocking: once a release has pushed a right-button or
a middle-button release (a right or middle click has been emulated), then
after any further calls of the same touch (none of them a press handled while
`motionPtrIndex == -1`) a release of pointer 0 emulates no left click: it
pushes nothing and does not set the event to `EVENT_LBUTTONDOWN`; the event
is the caller's event untouched, or the `EVENT_LBUTTONUP` of a drag release,
so it is typed `EVENT_LBUTTONDOWN` only if the caller passed it so.  Once a
middle click has been emulated, a later release of pointer 1 in the same
touch emulates no right click: it pushes no event and does not set the event
to `EVENT_RBUTTONDOWN`; the event is the caller's event untouched or the
escape key-down.  A block flag is cleared only by a press handled while
`motionPtrIndex == -1`. -/
theorem click_blocking (b : BaseKeys) (env : Env) (s : State) (ev : SDL_Event)
    (event e : Event) (cs : List Call) (env2 : Env) (ev2 : SDL_Event) (event2 : Event)
    (hpush : Effect.pushEvent e ∈ (handleMouseButtonUp env s ev event).effects)
    (hsame : sameTouch b (handleMouseButtonUp env s ev event).state cs = true) :
    (e.type = EVENT_RBUTTONUP ∨ e.type = EVENT_MBUTTONUP → ev2.which = 0 →
      (handleMouseButtonUp env2 (run b (handleMouseButtonUp env s ev event).state cs)
          ev2 event2).effects = [] ∧
      ((handleMouseButtonUp env2 (run b (handleMouseButtonUp env s ev event).state cs)
          ev2 event2).event = event2 ∨
       (handleMouseButtonUp env2 (run b (handleMouseButtonUp env s ev event).state cs)
          ev2 event2).event =
         ⟨EVENT_LBUTTONUP, event2.kbd,
          ⟨(run b (handleMouseButtonUp env s ev event).state cs).curX,
           (run b (handleMouseButtonUp env s ev event).state cs).curY⟩⟩) ∧
      (event2.type ≠ EVENT_LBUTTONDOWN →
        (handleMouseButtonUp env2 (run b (handleMouseButtonUp env s ev event).state cs)
          ev2 event2).event.type ≠ EVENT_LBUTTONDOWN)) ∧
    (e.type = EVENT_MBUTTONUP → ev2.which = 1 →
      (∀ e2, Effect.pushEvent e2 ∉
        (handleMouseButtonUp env2 (run b (handleMouseButtonUp env s ev event).state cs)
          ev2 event2).effects) ∧
      ((handleMouseButtonUp env2 (run b (handleMouseButtonUp env s ev event).state cs)
          ev2 event2).event = event2 ∨
       (handleMouseButtonUp env2 (run b (handleMouseButtonUp env s ev event).state cs)
          ev2 event2).event =
         ⟨EVENT_KEYDOWN, ⟨KEYCODE_ESCAPE, ASCII_ESCAPE, 0⟩, event2.mouse⟩) ∧
      (event2.type ≠ EVENT_RBUTTONDOWN →
        (handleMouseButtonUp env2 (run b (handleMouseButtonUp env s ev event).state cs)
          ev2 event2).event.type ≠ EVENT_RBUTTONDOWN)) ∧
    (∀ (c : Call) (t : State),
      (t.blockLClick = true ∧ (c.exec b t).state.blockLClick = false) ∨
      (t.blockRClick = true ∧ (c.exec b t).state.blockRClick = false) →
      c.isFirstTouch t = true) := by
  have hb := handleMouseButtonUp_push_blocks env s ev event e hpush
  have hk := run_keeps_blocks b cs (handleMouseButtonUp env s ev event).state hsame
  refine ⟨?_, ?_, ?_⟩
  · intro he hwhich
    have h := handleMouseButtonUp_left_blocked env2 _ ev2 event2 hwhich (hk.1 (hb.1 he))
    refine ⟨h.1, h.2, ?_⟩
    intro hne
    rcases h.2 with h2 | h2 <;> rw [h2]
    · exact hne
    · simp
  · intro he hwhich
    have h := handleMouseButtonUp_right_blocked env2 _ ev2 event2 hwhich (hk.2 (hb.2 he))
    refine ⟨h.1, h.2, ?_⟩
    intro hne
    rcases h.2 with h2 | h2 <;> rw [h2]
    · exact hne
    · simp
  · intro c t h
    by_contra hc
    have hc2 : c.isFirstTouch t = false := by simpa using hc
    have := exec_keeps_blocks b c t hc2
    rcases h with ⟨h1, h2⟩ | ⟨h1, h2⟩
    · rw [this.1 h1] at h2
      exact absurd h2 (by decide)
    · rw [this.2 h1] at h2
      exact absurd h2 (by decide)

/-- C8 at a concrete input: a third-finger tap at (100, 50), a small motion of
the first finger, then the release of the first finger. -/
theorem click_blocking_witness :
    (handleMouseButtonUp (envAt 900)
        (run noBaseKeys
          (handleMouseButtonUp (envAt 700)
            { State.init with curX := 100, curY := 50, motionPtrIndex := 2 }
            (pointerEvent 2 200 60 0 0) blankEvent).state
          [callAt Handler.handleMouseMotion 800 (pointerEvent 0 101 50 1 0)])
        (pointerEvent 0 101 50 0 0) blankEvent).effects = [] :=
  ((click_blocking noBaseKeys (envAt 700)
      { State.init with curX := 100, curY := 50, motionPtrIndex := 2 }
      (pointerEvent 2 200 60 0 0) blankEvent ⟨EVENT_MBUTTONUP, ⟨0, 0, 0⟩, ⟨100, 50⟩⟩
      [callAt Handler.handleMouseMotion 800 (pointerEvent 0 101 50 1 0)]
      (envAt 900) (pointerEvent 0 101 50 0 0) blankEvent (by decide) (by decide)).1
    (Or.inr rfl) rfl).1

/-- C9 on the trace `swipeThenDragTrace`: the first touch at time 10000 queues
the held left click; the motion at time 10100 returns with a pointer down,
10 pixels of accumulated motion and drag mode active, but the
`EVENT_LBUTTONDOWN` is still in the queue slot, and `pollEvent` at time 10500
delivers it at (110, 100). -/
theorem heldClick_survives_motion :
    (run noBaseKeys State.init (swipeThenDragTrace.take 6)).motionPtrIndex = -1 ∧
    (run noBaseKeys State.init (swipeThenDragTrace.take 7)).queuedInputEvent.type =
      EVENT_LBUTTONDOWN ∧
    (run noBaseKeys State.init swipeThenDragTrace).motionPtrIndex ≠ -1 ∧
    |(run noBaseKeys State.init swipeThenDragTrace).dragDiffX| > 5 ∧
    (run noBaseKeys State.init swipeThenDragTrace).dragging = true ∧
    (run noBaseKeys State.init swipeThenDragTrace).queuedInputEvent.type = EVENT_LBUTTONDOWN ∧
    (pollEvent idlePoll (envAt 10500) (run noBaseKeys State.init swipeThenDragTrace)
      blankEvent).ret = true ∧
    (pollEvent idlePoll (envAt 10500) (run noBaseKeys State.init swipeThenDragTrace)
      blankEvent).event.type = EVENT_LBUTTONDOWN ∧
    (pollEvent idlePoll (envAt 10500) (run noBaseKeys State.init swipeThenDragTrace)
      blankEvent).event.mouse = ⟨110, 100⟩ := by
  decide

/-- C10 on the trace `swipeAndReturnTrace`: the release of the second finger
sets `specialAction` (keyboard request), no new touch starts afterwards, and
the release of pointer 0 still emulates a left click: it pushes an
`EVENT_LBUTTONUP` at (100, 300) and returns an `EVENT_LBUTTONDOWN`. -/
theorem click_after_specialAction :
    (run noBaseKeys State.init (swipeAndReturnTrace.take 3)).specialAction = false ∧
    (run noBaseKeys State.init (swipeAndReturnTrace.take 4)).specialAction = true ∧
    sameTouch noBaseKeys (run noBaseKeys State.init (swipeAndReturnTrace.take 1))
      (swipeAndReturnTrace.drop 1) = true ∧
    (run noBaseKeys State.init swipeAndReturnTrace).specialAction = true ∧
    (handleMouseButtonUp (envAt 250) (run noBaseKeys State.init swipeAndReturnTrace)
      (pointerEvent 0 100 300 0 0) blankEvent).effects =
        [Effect.pushEvent ⟨EVENT_LBUTTONUP, ⟨0, 0, 0⟩, ⟨100, 300⟩⟩] ∧
    (handleMouseButtonUp (envAt 250) (run noBaseKeys State.init swipeAndReturnTrace)
      (pointerEvent 0 100 300 0 0) blankEvent).event =
        ⟨EVENT_LBUTTONDOWN, ⟨0, 0, 0⟩, ⟨100, 300⟩⟩ := by
  decide

/-! ## Drag release and the accumulated motion -/

/-- C11. Drag release: with drag mode active and no special action, the
release of pointer 0 simply sends a mouse-up: it returns true with the event
typed `EVENT_LBUTTONUP` at `(curX, curY)`, pushes nothing (so no
`EVENT_LBUTTONDOWN` is emitted), sets `dragging` to false and `motionPtrIndex`
to -1, cancels a pending queued `EVENT_LBUTTONDOWN`, and leaves `blockLClick`,
`blockRClick`, `specialAction`, `dragDiffX`, `dragDiffY`, `curX`, `curY` and
`gestureDown` (and every other static) unchanged. -/
theorem handleMouseButtonUp_dragRelease (env : Env) (s : State) (ev : SDL_Event)
    (event : Event) (hwhich : ev.which = 0) (hdrag : s.dragging = true)
    (hspecial : s.specialAction = false) :
    handleMouseButtonUp env s ev event =
      ⟨true, ⟨EVENT_LBUTTONUP, event.kbd, ⟨s.curX, s.curY⟩⟩,
       { s with
         motionPtrIndex := -1
         dragging := false
         queuedInputEvent :=
           if s.queuedInputEvent.type = EVENT_LBUTTONDOWN then
             { s.queuedInputEvent with type := EVENT_INVALID }
           else s.queuedInputEvent },
       []⟩ ∧
    (handleMouseButtonUp env s ev event).state.queuedInputEvent.type ≠ EVENT_LBUTTONDOWN ∧
    (handleMouseButtonUp env s ev event).state.blockLClick = s.blockLClick ∧
    (handleMouseButtonUp env s ev event).state.blockRClick = s.blockRClick ∧
    (handleMouseButtonUp env s ev event).state.specialAction = s.specialAction ∧
    (handleMouseButtonUp env s ev event).state.dragDiffX = s.dragDiffX ∧
    (handleMouseButtonUp env s ev event).state.dragDiffY = s.dragDiffY ∧
    (handleMouseButtonUp env s ev event).state.curX = s.curX ∧
    (handleMouseButtonUp env s ev event).state.curY = s.curY ∧
    (handleMouseButtonUp env s ev event).state.gestureDown = s.gestureDown := by
  rw [handleMouseButtonUp_pointer0 env s ev event hwhich, if_pos ⟨hdrag, hspecial⟩]
  by_cases hq : s.queuedInputEvent.type = EVENT_LBUTTONDOWN <;>
    simp [State.cancelHeldClick, hq]

/-- C11 at a concrete input: the release of a drag from (100, 100) to
(160, 100) while the held left click is still queued. -/
theorem handleMouseButtonUp_dragRelease_witness :
    handleMouseButtonUp (envAt 300)
        { State.init with curX := 160, curY := 100, dragDiffX := 60, dragging := true,
                          motionPtrIndex := 0, queuedEventTime := 500,
                          queuedInputEvent := ⟨EVENT_LBUTTONDOWN, ⟨0, 0, 0⟩, ⟨0, 0⟩⟩ }
        (pointerEvent 0 160 100 0 0) blankEvent =
      ⟨true, ⟨EVENT_LBUTTONUP, ⟨0, 0, 0⟩, ⟨160, 100⟩⟩,
       { State.init with curX := 160, curY := 100, dragDiffX := 60, dragging := false,
                         motionPtrIndex := -1, queuedEventTime := 500,
                         queuedInputEvent := ⟨EVENT_INVALID, ⟨0, 0, 0⟩, ⟨0, 0⟩⟩ },
       []⟩ :=
  (handleMouseButtonUp_dragRelease (envAt 300)
    { State.init with curX := 160, curY := 100, dragDiffX := 60, dragging := true,
                      motionPtrIndex := 0, queuedEventTime := 500,
                      queuedInputEvent := ⟨EVENT_LBUTTONDOWN, ⟨0, 0, 0⟩, ⟨0, 0⟩⟩ }
    (pointerEvent 0 160 100 0 0) blankEvent rfl rfl rfl).1

/-- The accumulated motion after `handleMouseMotion`: a pointer-0 motion adds
its relative motion (stored in an `int`), any other pointer leaves the sums
alone. -/
theorem handleMouseMotion_dragDiff (env : Env) (s : State) (ev : SDL_Event) (event : Event) :
    (handleMouseMotion env s ev event).state.dragDiffX =
      (if ev.which = 0 then wrapInt (s.dragDiffX + ev.xrel) else s.dragDiffX) ∧
    (handleMouseMotion env s ev event).state.dragDiffY =
      (if ev.which = 0 then wrapInt (s.dragDiffY + ev.yrel) else s.dragDiffY) := by
  simp only [handleMouseMotion, Id.run]
  simp
  split_ifs <;> simp

/-- The accumulated motion after a first touch is zero. -/
theorem handleMouseButtonDown_dragDiff (env : Env) (s : State) (ev : SDL_Event)
    (event : Event) (h : s.motionPtrIndex = -1) :
    (handleMouseButtonDown env s ev event).state.dragDiffX = 0 ∧
    (handleMouseButtonDown env s ev event).state.dragDiffY = 0 := by
  simp [handleMouseButtonDown, h]

/-- The accumulated motion after a sequence of pointer-0 motions is the
running sum of the relative motions, each sum stored in an `int`: the net
displacement, not the largest one. -/
theorem run_motions_dragDiff (b : BaseKeys) (cs : List Call) :
    ∀ s : State, (∀ c ∈ cs, c.handler = Handler.handleMouseMotion ∧ c.ev.which = 0) →
      (run b s cs).dragDiffX =
        (cs.map fun c => c.ev.xrel).foldl (fun acc rel => wrapInt (acc + rel)) s.dragDiffX ∧
      (run b s cs).dragDiffY =
        (cs.map fun c => c.ev.yrel).foldl (fun acc rel => wrapInt (acc + rel)) s.dragDiffY := by
  induction cs with
  | nil => intro s _; simp [run]
  | cons c cs ih =>
    intro s h
    have hc := h c (by simp)
    have hrest := ih (c.exec b s).state (fun d hd => h d (by simp [hd]))
    have hm := handleMouseMotion_dragDiff c.env s c.ev c.event
    rw [if_pos hc.2, if_pos hc.2] at hm
    have hexec : (c.exec b s).state = (handleMouseMotion c.env s c.ev c.event).state := by
      simp [Call.exec, hc.1]
    rw [run_cons, hrest.1, hrest.2, hexec, hm.1, hm.2]
    simp only [List.map_cons, List.foldl_cons, and_self]

/-- C12 on the trace `strayAndReturnTrace`: the first touch resets both sums
to 0; the finger then strays 10 pixels to the right and 8 pixels down and
comes back, so the largest displacements reached are 10 and 8, but
`dragDiffX` and `dragDiffY` are 0 again; and the tap of a second finger that
follows passes the `ABS(dragDiff) < 6` tests: it pushes an `EVENT_RBUTTONUP`
and returns an `EVENT_RBUTTONDOWN`. -/
theorem dragDiff_forgets_largest_motion :
    State.init.motionPtrIndex = -1 ∧
    (run noBaseKeys State.init (strayAndReturnTrace.take 1)).dragDiffX = 0 ∧
    (run noBaseKeys State.init (strayAndReturnTrace.take 1)).dragDiffY = 0 ∧
    largestDisplacement 0 (horizontalMotions strayAndReturnTrace) = 10 ∧
    largestDisplacement 0 (verticalMotions strayAndReturnTrace) = 8 ∧
    (run noBaseKeys State.init strayAndReturnTrace).dragDiffX = 0 ∧
    (run noBaseKeys State.init strayAndReturnTrace).dragDiffY = 0 ∧
    (handleMouseButtonUp (envAt 200)
      (run noBaseKeys State.init (strayAndReturnTrace ++ secondFingerPress))
      (pointerEvent 1 200 200 0 0) blankEvent).effects =
        [Effect.pushEvent ⟨EVENT_RBUTTONUP, ⟨0, 0, 0⟩, ⟨100, 100⟩⟩] ∧
    (handleMouseButtonUp (envAt 200)
      (run noBaseKeys State.init (strayAndReturnTrace ++ secondFingerPress))
      (pointerEvent 1 200 200 0 0) blankEvent).event =
        ⟨EVENT_RBUTTONDOWN, ⟨0, 0, 0⟩, ⟨100, 100⟩⟩ := by
  decide

end WebOSSdlEventSource
